import Mathlib

/-!
Verification of the ENS-paybot intent-resolution-and-transaction-assembly
pipeline against its natural-language specification.

The development is a shallow embedding of the Python sources:
  src/payment/core.py        (PaymentCore: chain config, intent parsing,
                              balance check, transaction build, orchestrator)
  src/metta/knowledge_graph.py (MeTTaKnowledgeGraph: fact store, caches, queries)
  src/ens_resolver/resolver.py (ENSResolver: static alias resolution + cache)
  src/llm/asi1_client.py     (PaymentIntent, ASI1Client parsing paths)

Modelling conventions:
  * Python floats are embedded as rationals (Rat).  All amounts exercised by
    the claims are short decimals, on which float arithmetic is exact, so the
    rational embedding agrees with the source on every value a theorem touches.
  * Fallible code is embedded with Except/Option; external effects (HTTP call
    to the ASI1 oracle, RPC balance/decimals/gas calls, json decoding of the
    oracle body) are supplied by an explicit environment record.
  * Strings are treated as ASCII (prompts, aliases and addresses in the
    repository are ASCII); str.lower / str.strip / \s are modelled on the
    ASCII subset.
  * Regular expressions from the source are embedded as hand-written matchers
    with the same (leftmost, greedy) semantics; for every pattern used by the
    code the greedy match without global backtracking is exact, because no
    character class in these patterns overlaps the token that follows it.
-/

namespace PayBot

/-! ## Python string primitives -/

/-- Python `\s` (ASCII subset): space, tab, newline, carriage return,
vertical tab, form feed. -/
def isWsC (c : Char) : Bool :=
  c == ' ' || c == '\t' || c == '\n' || c == '\r' || c == '\x0b' || c == '\x0c'

/-- Character class `[a-zA-Z0-9-]` from the alias patterns. -/
def isClassChar (c : Char) : Bool :=
  c.isAlphanum || c == '-'

/-- ASCII lowercase table. -/
def lowerPairs : List (Char × Char) :=
  [ ('A','a'), ('B','b'), ('C','c'), ('D','d'), ('E','e'), ('F','f'), ('G','g')
  , ('H','h'), ('I','i'), ('J','j'), ('K','k'), ('L','l'), ('M','m'), ('N','n')
  , ('O','o'), ('P','p'), ('Q','q'), ('R','r'), ('S','s'), ('T','t'), ('U','u')
  , ('V','v'), ('W','w'), ('X','x'), ('Y','y'), ('Z','z') ]

/-- Python `str.lower()` on one ASCII character. -/
def lowerC (c : Char) : Char :=
  ((lowerPairs.find? (fun p => p.1 == c)).map (·.2)).getD c

/-- Python `str.lower()` on the ASCII subset. -/
def lowerL (l : List Char) : List Char := l.map lowerC

/-- Python `str.strip()` (ASCII whitespace). -/
def stripL (l : List Char) : List Char :=
  ((l.dropWhile isWsC).reverse.dropWhile isWsC).reverse

/-- Python `str.strip()` as a String operation. -/
def pyStrip (s : String) : String := String.mk (stripL s.data)

/-- Does list `p` occur at the head of `h`? -/
def startsWithL [BEq α] : List α → List α → Bool
  | _, [] => true
  | [], _ :: _ => false
  | a :: as, b :: bs => a == b && startsWithL as bs

/-- Does `p` occur as a contiguous segment of `h`?  Models Python `p in h`. -/
def containsSubL [BEq α] : List α → List α → Bool
  | h, p =>
    match h with
    | [] => startsWithL [] p
    | _ :: t => startsWithL h p || containsSubL t p

/-- Python substring test `needle in haystack`. -/
def strContains (h needle : String) : Bool := containsSubL h.data needle.data

/-- Whitespace split worker: accumulates the current (reversed) token. -/
def splitWsGo : List Char → List Char → List String
  | [], acc => if acc.isEmpty then [] else [String.mk acc.reverse]
  | c :: cs, acc =>
    if isWsC c then
      if acc.isEmpty then splitWsGo cs []
      else String.mk acc.reverse :: splitWsGo cs []
    else splitWsGo cs (c :: acc)

/-- Python `str.split()` with no argument: split on whitespace runs,
discarding empty fields. -/
def pySplit (s : String) : List String := splitWsGo s.data []

/-- The `query.replace('(', ' ').replace(')', ' ')` step of the
knowledge-graph query handlers. -/
def replParens (s : String) : String :=
  String.mk (s.data.map (fun c => if c == '(' || c == ')' then ' ' else c))

/-- Value of a digit string. -/
def digitsVal (l : List Char) : Nat :=
  l.foldl (fun a c => a * 10 + (c.toNat - 48)) 0

/-- Rational arithmetic in explicit normalized form.  `Rat.add`, `Rat.mul`
and `Rat.div` are `@[irreducible]`, which would block kernel evaluation of
the concrete witnesses; the forms below are kernel-evaluable and proved
equal to the algebraic operations (`ratAdd_eq`, `ratScale_eq`,
`ratDivPow_eq`). -/
def ratAdd (a b : Rat) : Rat :=
  mkRat (a.num * (b.den : Int) + b.num * (a.den : Int)) (a.den * b.den)

/-- `q * 10^k` in explicit normalized form. -/
def ratScale (q : Rat) (k : Nat) : Rat :=
  mkRat (q.num * ((10 : Int) ^ k)) q.den

/-- `n / 10^k` in explicit normalized form. -/
def ratDivPow (n : Nat) (k : Nat) : Rat :=
  mkRat (n : Int) ((10 : Nat) ^ k)

/-- Value of `<int digits>.<frac digits>` as a rational; models
`float(...)` of such a literal — the exact value
`digits + frac / 10^len` as a single fraction (the claims only exercise
short decimals, where the Python float is exact). -/
def decVal (d f : List Char) : Rat :=
  mkRat ((digitsVal d * 10 ^ f.length + digitsVal f : Nat) : Int) ((10 : Nat) ^ f.length)

/-- Greedy `p+`: the maximal nonempty prefix of characters satisfying `p`,
with the rest; `none` when the first character does not satisfy `p`. -/
def takeWhile1 (p : Char → Bool) (l : List Char) : Option (List Char × List Char) :=
  let t := l.takeWhile p
  if t.isEmpty then none else some (t, l.dropWhile p)

/-- Match a literal character sequence, returning the rest. -/
def matchLit : List Char → List Char → Option (List Char)
  | [], s => some s
  | _ :: _, [] => none
  | p :: ps, c :: cs => if p == c then matchLit ps cs else none

/-- Models `float(s)` for plain decimal literals with optional sign
(`digits`, `digits.digits`, optionally preceded by `+`/`-`, surrounded by
whitespace).  Exponent/inf/nan forms are outside the modelled domain and
are reported as a parse failure (ValueError); no string the proved theorems
evaluate uses those forms. -/
def pyFloatParse (s : String) : Option Rat :=
  let parseU : List Char → Option Rat := fun l =>
    match takeWhile1 Char.isDigit l with
    | none => none
    | some (d, rest) =>
      match rest with
      | [] => some (digitsVal d : Rat)
      | '.' :: r2 =>
        match takeWhile1 Char.isDigit r2 with
        | some (f, []) => some (decVal d f)
        | _ => none
      | _ => none
  match stripL s.data with
  | '-' :: r => (parseU r).map Neg.neg
  | '+' :: r => parseU r
  | t => parseU t

/-- Minimal number of decimal digits after the point needed to write `q`
exactly, when at most 40. -/
def decExp (q : Rat) : Option Nat :=
  (List.range 41).find? (fun k => (ratScale q k).den == 1)

/-- Left-pad a string with zeros to width `w` (plain form, no sign). -/
def padZeros (s : String) (w : Nat) : String :=
  if s.length ≥ w then s else String.mk (List.replicate (w - s.length) '0') ++ s

/-- Python `repr`/f-string rendering of a float whose value is a short
decimal: integer values render with a trailing `.0` (`5.0`), other finite
decimals render with their minimal digits (`0.6`).  Rationals without a
short decimal expansion (unreachable in the source, whose floats always
have one) render as a fraction. -/
def reprQ (q : Rat) : String :=
  match decExp q with
  | some 0 => toString q.num ++ ".0"
  | some (k + 1) =>
    let n := (ratScale q (k + 1)).num
    let sign := if n < 0 then "-" else ""
    let a := n.natAbs
    sign ++ toString (a / 10 ^ (k + 1)) ++ "." ++
      padZeros (toString (a % 10 ^ (k + 1))) (k + 1)
  | none => toString q.num ++ "/" ++ toString q.den

/-- Python `f"{x:.2f}"` for the nonnegative balances the code formats:
two decimal digits.  `Int.fdiv (200*q.num + q.den) (2*q.den)` is
`⌊100*q + 1/2⌋` written on the explicit fraction.  (Python rounds
half-to-even on the underlying binary float; every value a theorem formats
is exact in hundredths, where the two agree.) -/
def format2 (q : Rat) : String :=
  let n := Int.fdiv (200 * q.num + (q.den : Int)) (2 * (q.den : Int))
  let sign := if n < 0 then "-" else ""
  let a := n.natAbs
  sign ++ toString (a / 100) ++ "." ++ padZeros (toString (a % 100)) 2

/-- Python rendering of an optional float in an f-string: `None` when the
value is missing/null. -/
def pyReprOptQ : Option Rat → String
  | none => "None"
  | some q => reprQ q

/-- Python rendering of an optional string in an f-string. -/
def pyReprOptStr : Option String → String
  | none => "None"
  | some s => s

/-- Body of `pyStrList`: comma-separated single-quoted items. -/
def pyStrListGo : List String → String
  | [] => ""
  | [x] => "'" ++ x ++ "'"
  | x :: y :: xs => "'" ++ x ++ "', " ++ pyStrListGo (y :: xs)

/-- Python `str(list_of_strings)`: comma-separated single-quoted items.
(Python switches the quote character when an item contains `'`; no fact
the code builds does.) -/
def pyStrList (l : List String) : String :=
  "[" ++ pyStrListGo l ++ "]"

/-! ## Python dict primitives (insertion-ordered association lists) -/

/-- Python `d[k]` / `d.get(k)`: first binding wins (dicts never hold a
duplicated key: `dictSet` overwrites in place). -/
def dictGet [BEq α] (d : List (α × β)) (k : α) : Option β :=
  (d.find? (fun p => p.1 == k)).map (·.2)

/-- Python `d[k] = v`: overwrite in place, or append a new binding. -/
def dictSet [BEq α] : List (α × β) → α → β → List (α × β)
  | [], k, v => [(k, v)]
  | (k', v') :: rest, k, v =>
    if k' == k then (k, v) :: rest else (k', v') :: dictSet rest k v

/-- Python `k in d`. -/
def dictMem [BEq α] (d : List (α × β)) (k : α) : Bool :=
  (dictGet d k).isSome

/-- Python `l[-n:]`. -/
def takeLast (n : Nat) (l : List α) : List α := l.drop (l.length - n)

/-! ## src/metta/knowledge_graph.py — MeTTaKnowledgeGraph -/

/-- Per-user history entry; `update_user_history` is only ever called with
the dict `{'last_request': prompt, 'chain_id': chain_id, 'age_days': 1}`
(core.py:225-229), whose fields this record mirrors. -/
structure UserData where
  last_request : String
  chain_id : Nat
  age_days : Int
deriving DecidableEq

/-- State of `MeTTaKnowledgeGraph` (knowledge_graph.py:4-12). -/
structure KG where
  facts : List String
  rules : List String
  ens_cache : List (String × String)
  balance_cache : List (String × Rat)
  user_history : List (String × UserData)
deriving DecidableEq

/-- `add_fact` (knowledge_graph.py:28-31): append iff not already present. -/
def add_fact (g : KG) (fact : String) : KG :=
  if g.facts.contains fact then g else { g with facts := g.facts ++ [fact] }

/-- `add_rule` (knowledge_graph.py:33-36). -/
def add_rule (g : KG) (rule : String) : KG :=
  if g.rules.contains rule then g else { g with rules := g.rules ++ [rule] }

/-- The six foundational rules of `initialize_rules`
(knowledge_graph.py:14-26). -/
def basicRules : List String :=
  [ "(= (valid-ens ?name) (ends-with ?name \".eth\"))"
  , "(= (can-pay ?user ?amount) (>= (balance ?user) ?amount))"
  , "(= (payment-safe ?user ?amount ?ens) (and (can-pay ?user ?amount) (valid-ens ?ens)))"
  , "(= (large-payment ?amount) (> ?amount 1000))"
  , "(= (suspicious-pattern ?user ?amount) (and (large-payment ?amount) (new-user ?user)))"
  , "(= (new-user ?user) (< (user-age-days ?user) 1))" ]

/-- A freshly constructed `MeTTaKnowledgeGraph()`: empty state with the
foundational rules installed (source name: `initialize_rules`). -/
def initKG : KG :=
  basicRules.foldl add_rule ⟨[], [], [], [], []⟩

/-- `get_cached_balance` (knowledge_graph.py:142-144). -/
def get_cached_balance (g : KG) (user : String) : Rat :=
  (dictGet g.balance_cache user).getD 0

/-- `get_cached_ens` (knowledge_graph.py:146-148). -/
def get_cached_ens (g : KG) (ens_name : String) : String :=
  (dictGet g.ens_cache ens_name).getD ""

/-- `update_balance_cache` (knowledge_graph.py:150-153). -/
def update_balance_cache (g : KG) (user : String) (balance : Rat) : KG :=
  add_fact { g with balance_cache := dictSet g.balance_cache user balance }
    ("(balance " ++ user ++ " " ++ reprQ balance ++ ")")

/-- `update_ens_cache` (knowledge_graph.py:155-158). -/
def update_ens_cache (g : KG) (ens_name address : String) : KG :=
  add_fact { g with ens_cache := dictSet g.ens_cache ens_name address }
    ("(ens-address " ++ ens_name ++ " " ++ address ++ ")")

/-- `update_user_history` (knowledge_graph.py:160-164). -/
def update_user_history (g : KG) (user : String) (data : UserData) : KG :=
  add_fact { g with user_history := dictSet g.user_history user data }
    ("(user-age-days " ++ user ++ " " ++ toString data.age_days ++ ")")

/-- The ValueError message `float(s)` raises on a non-numeric string. -/
def floatErr (s : String) : String :=
  "could not convert string to float: '" ++ s ++ "'"

/-- `_query_can_pay` (knowledge_graph.py:60-78).  The `Except` layer
carries the ValueError that `float(parts[3])` raises on a non-numeric
token (caught by `query`). -/
def query_can_pay (g : KG) (q : String) : Except String (List String × KG) :=
  match pySplit (replParens q) with
  | _ :: _ :: user :: amountStr :: _ =>
    match pyFloatParse amountStr with
    | none => .error (floatErr amountStr)
    | some amount =>
      let user_balance := get_cached_balance g user
      if user_balance ≥ amount then
        let result := "(can-pay " ++ user ++ " " ++ reprQ amount ++ ")"
        .ok ([result], add_fact g result)
      else
        let result := "(insufficient-balance " ++ user ++ " " ++ reprQ amount
          ++ " " ++ reprQ user_balance ++ ")"
        .ok ([result], add_fact g result)
  | _ => .ok (["(invalid-query-format)"], g)

/-- `_query_resolve_ens` (knowledge_graph.py:80-92). -/
def query_resolve_ens (g : KG) (q : String) : Except String (List String × KG) :=
  match pySplit (replParens q) with
  | _ :: _ :: ens_name :: _ =>
    let address := get_cached_ens g ens_name
    if address ≠ "" then
      let result := "(ens-address " ++ ens_name ++ " " ++ address ++ ")"
      .ok ([result], add_fact g result)
    else
      .ok (["(ens-unknown " ++ ens_name ++ ")"], g)
  | _ => .ok (["(invalid-query-format)"], g)

/-- `_query_payment_safe` (knowledge_graph.py:94-119). -/
def query_payment_safe (g : KG) (q : String) : Except String (List String × KG) :=
  match pySplit (replParens q) with
  | _ :: _ :: user :: amountStr :: ens_name :: _ =>
    match pyFloatParse amountStr with
    | none => .error (floatErr amountStr)
    | some amount =>
      let can_pay := get_cached_balance g user ≥ amount
      let valid_ens := startsWithL ens_name.data.reverse ".eth".data.reverse
      if can_pay ∧ valid_ens then
        let result := "(payment-safe " ++ user ++ " " ++ reprQ amount ++ " " ++ ens_name ++ ")"
        .ok ([result], add_fact g result)
      else
        let issues := (if can_pay then [] else ["insufficient-balance"])
          ++ (if valid_ens then [] else ["invalid-ens"])
        let result := "(payment-unsafe " ++ user ++ " " ++ reprQ amount ++ " "
          ++ ens_name ++ " " ++ String.intercalate " " issues ++ ")"
        .ok ([result], add_fact g result)
  | _ => .ok (["(invalid-query-format)"], g)

/-- `_query_suspicious_pattern` (knowledge_graph.py:121-140). -/
def query_suspicious_pattern (g : KG) (q : String) : Except String (List String × KG) :=
  match pySplit (replParens q) with
  | _ :: _ :: user :: amountStr :: _ =>
    match pyFloatParse amountStr with
    | none => .error (floatErr amountStr)
    | some amount =>
      let is_large := amount > 1000
      let is_new_user := ((dictGet g.user_history user).map (·.age_days)).getD 0 < 1
      if is_large ∧ is_new_user then
        let result := "(suspicious-pattern " ++ user ++ " " ++ reprQ amount
          ++ " large-payment new-user)"
        .ok ([result], add_fact g result)
      else
        let result := "(normal-pattern " ++ user ++ " " ++ reprQ amount ++ ")"
        .ok ([result], add_fact g result)
  | _ => .ok (["(invalid-query-format)"], g)

/-- `query` (knowledge_graph.py:38-58): dispatch on substring markers, with
the handler exceptions converted into a `(query-error ...)` sentinel. -/
def query (g : KG) (q : String) : List String × KG :=
  match (if strContains q "can-pay" then query_can_pay g q
    else if strContains q "resolve-ens" then query_resolve_ens g q
    else if strContains q "payment-safe" then query_payment_safe g q
    else if strContains q "suspicious-pattern" then query_suspicious_pattern g q
    else .ok (["(unknown-query " ++ q ++ ")"], g)) with
  | .ok r => r
  | .error e => (["(query-error " ++ e ++ ")"], g)

/-- `get_payment_reasoning` (knowledge_graph.py:166-208).  The Python dict
also carries a constant four-step plan and cache-size echoes which no
component reads back; the embedding keeps the state effect (the
`payment-request` fact) and the `facts_used` snapshot. -/
def get_payment_reasoning (g : KG) (prompt user : String) : List String × KG :=
  let g := add_fact g ("(payment-request " ++ user ++ " \"" ++ prompt ++ "\")")
  (takeLast 10 g.facts, g)

/-! ## src/ens_resolver/resolver.py — ENSResolver -/

/-- The static alias table of `resolve_ens` (resolver.py:34-40). -/
def staticEnsMappings : List (String × String) :=
  [ ("vitalik.eth", "0xd8dA6BF26964aF9D7eEd9e03E53415D37aA96045")
  , ("nick.eth", "0xb8c2C29ee19D8307cb7255e1Cd9CbDE883A267d5")
  , ("ens.eth", "0xFe89cc7aBB2C4183683ab71653C4cdc9B02D44b7")
  , ("alice.eth", "0x4675C7e5BaAFBFFbca748158bEcBA61ef3b0a263")
  , ("test.eth", "0x1234567890123456789012345678901234567890") ]

/-- `resolve_ens` (resolver.py:26-53) for a resolver constructed with an
optional knowledge graph.  Returns the resolved address (or `none`), the
updated graph, and — an observability flag used to state the caching
claims — whether the external lookup step (the static-table consultation
standing in for a mainnet call) was executed. -/
def resolve_ens (kg : Option KG) (ens_name : String) : Option String × Option KG × Bool :=
  let cached := match kg with
    | some g => get_cached_ens g ens_name
    | none => ""
  if cached ≠ "" then (some cached, kg, false)
  else
    match dictGet staticEnsMappings (String.mk (lowerL ens_name.data)) with
    | some address => (some address, kg.map (fun g => update_ens_cache g ens_name address), true)
    | none => (none, kg, true)

/-! ## Regex matchers

The payment phrase patterns of core.py:89-94 and asi1_client.py:166-171:
  send|pay|transfer\s+(\d+(?:\.\d+)?)\s+usdc\s+to\s+([a-zA-Z0-9-]+\.eth)
  give\s+([a-zA-Z0-9-]+\.eth)\s+(\d+(?:\.\d+)?)\s+usdc
and the response heuristics of asi1_client.py:44-45.  Each is embedded as
a deterministic greedy matcher; greediness without backtracking is exact
here because no character class overlaps the literal that follows it
(digits/`.`/class characters are never whitespace, `.` is not a class
character). -/

/-- `\s+`: require and skip a whitespace run. -/
def skipWs1 (l : List Char) : Option (List Char) :=
  (takeWhile1 isWsC l).map (·.2)

/-- `(\d+(?:\.\d+)?)` followed by the value conversion `float(group)`:
digits with an optional fractional part.  When a `.` follows the digits
without further digits the optional group is not taken (the subsequent
mandatory `\s+` then fails at the `.`, exactly as the regex does). -/
def matchNum (l : List Char) : Option (Rat × List Char) :=
  match takeWhile1 Char.isDigit l with
  | none => none
  | some (d, r) =>
    match r with
    | '.' :: r2 =>
      match takeWhile1 Char.isDigit r2 with
      | some (f, r3) => some (decVal d f, r3)
      | none => some ((digitsVal d : Rat), '.' :: r2)
    | _ => some ((digitsVal d : Rat), r)

/-- `([a-zA-Z0-9-]+\.eth)`: class run then the literal `.eth`; the capture
is their concatenation. -/
def matchAlias (l : List Char) : Option (String × List Char) :=
  match takeWhile1 isClassChar l with
  | none => none
  | some (w, r) =>
    match matchLit ".eth".data r with
    | none => none
    | some r2 => some (String.mk (w ++ ".eth".data), r2)

/-- One of the three `<verb> <amount> usdc to <alias>` patterns, anchored
at the current position. -/
def matchVerbAt (verb : String) (l : List Char) : Option (Rat × String) :=
  match matchLit verb.data l with
  | none => none
  | some r =>
  match skipWs1 r with
  | none => none
  | some r =>
  match matchNum r with
  | none => none
  | some (a, r) =>
  match skipWs1 r with
  | none => none
  | some r =>
  match matchLit "usdc".data r with
  | none => none
  | some r =>
  match skipWs1 r with
  | none => none
  | some r =>
  match matchLit "to".data r with
  | none => none
  | some r =>
  match skipWs1 r with
  | none => none
  | some r =>
  match matchAlias r with
  | none => none
  | some (rcp, _) => some (a, rcp)

/-- The `give <alias> <amount> usdc` pattern, anchored at the current
position (the source swaps the group order back, core.py:99-101). -/
def matchGiveAt (l : List Char) : Option (Rat × String) :=
  match matchLit "give".data l with
  | none => none
  | some r =>
  match skipWs1 r with
  | none => none
  | some r =>
  match matchAlias r with
  | none => none
  | some (rcp, r) =>
  match skipWs1 r with
  | none => none
  | some r =>
  match matchNum r with
  | none => none
  | some (a, r) =>
  match skipWs1 r with
  | none => none
  | some r =>
  match matchLit "usdc".data r with
  | none => none
  | some _ => some (a, rcp)

/-- `re.search`: try the anchored matcher at each position, leftmost match
wins. -/
def searchPos (m : List Char → Option α) : List Char → Option α
  | [] => m []
  | c :: rest =>
    match m (c :: rest) with
    | some x => some x
    | none => searchPos m rest

/-- The ordered pattern scan of core.py:89-104 / asi1_client.py:166-181:
first pattern with a match anywhere wins; returns `(amount, recipient)`. -/
def scanPatterns (l : List Char) : Option (Rat × String) :=
  match searchPos (matchVerbAt "send") l with
  | some r => some r
  | none =>
    match searchPos (matchVerbAt "pay") l with
    | some r => some r
    | none =>
      match searchPos (matchVerbAt "transfer") l with
      | some r => some r
      | none => searchPos matchGiveAt l

/-- Anchored alias grammar `^[a-zA-Z0-9-]+\.eth$` (core.py:118,
resolver.py:72): a nonempty class run followed by exactly `.eth`. -/
def matchesEthGrammar (s : String) : Bool :=
  match takeWhile1 isClassChar s.data with
  | some (_, rest) => rest == ".eth".data
  | none => false

/-- `amount[:\s]+(\d+(?:\.\d+)?)` (asi1_client.py:44), anchored. -/
def matchAmountKeyAt (l : List Char) : Option Rat := do
  let r ← matchLit "amount".data l
  let r ← (takeWhile1 (fun c => c == ':' || isWsC c) r).map (·.2)
  let (a, _) ← matchNum r
  some a

/-- `recipient[:\s]+([a-zA-Z0-9-]+\.eth)` (asi1_client.py:45), anchored. -/
def matchRecipientKeyAt (l : List Char) : Option String := do
  let r ← matchLit "recipient".data l
  let r ← (takeWhile1 (fun c => c == ':' || isWsC c) r).map (·.2)
  let (rcp, _) ← matchAlias r
  some rcp

/-! ## src/llm/asi1_client.py — PaymentIntent and the parsing paths -/

/-- `PaymentIntent` (asi1_client.py:6-14).  `success` is stored by the
source as the raw JSON value and consumed only through truthiness checks;
the embedding applies the truthiness conversion at construction. -/
structure PaymentIntent where
  success : Bool
  amount : Option Rat := none
  recipient : Option String := none
  token : String := "USDC"
  error : Option String := none
  confidence : Rat := 0
deriving DecidableEq

/-- Decoded shape of a JSON object as read by
`PaymentIntent.from_llm_response` (asi1_client.py:30-39): the six fields
the code extracts, each possibly absent (or null).  The embedding models
oracle bodies whose present fields are well-typed; the theorems that
exercise the oracle path stay inside this space. -/
structure PyJson where
  success : Option Bool := none
  amount : Option Rat := none
  recipient : Option String := none
  token : Option String := none
  error : Option String := none
  confidence : Option Rat := none
deriving DecidableEq

/-- External-effect environment: the ASI1 HTTP exchange, `json.loads` on
the oracle body, and the RPC calls of the balance checker and transaction
builder.  `Except.error` carries the exception text. -/
structure Env where
  /-- `none`: no ASI1 client configured.  `some (.error e)`: the HTTP call
  raised `e` (asi1_client.py:148).  `some (.ok (status, body))`: response
  status and body text. -/
  asi1 : Option (Except String (Nat × String))
  /-- `json.loads` on the oracle body, uninterpreted: `.error` covers both
  a JSON decode error and a non-dict result (either way the source lands
  in the `except` of asi1_client.py:61-66). -/
  jsonLoads : String → Except String PyJson
  /-- `contract.functions.balanceOf(addr).call()` raw uint256 result. -/
  balanceOf : String → Except String Nat
  /-- `contract.functions.decimals().call()` result. -/
  decimals : Except String Nat
  /-- `w3.eth.estimate_gas(...)` result. -/
  estimateGas : Except String Nat
  /-- Is an ENS resolver wired into the orchestrator? -/
  hasResolver : Bool

/-- `PaymentIntent.from_llm_response` (asi1_client.py:26-66). -/
def from_llm_response (env : Env) (response_text : String) : PaymentIntent :=
  if startsWithL (stripL response_text.data) "\x7b".data then
    match env.jsonLoads response_text with
    | .ok d =>
      { success := d.success.getD false
        amount := d.amount
        recipient := d.recipient
        token := d.token.getD "USDC"
        error := d.error
        confidence := d.confidence.getD (mkRat 4 5) }
    | .error e =>
      { success := false, error := some ("Failed to parse ASI1 response: " ++ e) }
  else
    let rl := lowerL response_text.data
    match searchPos matchAmountKeyAt rl, searchPos matchRecipientKeyAt rl with
    | some a, some r =>
      { success := true, amount := some a, recipient := some r, confidence := mkRat 7 10 }
    | _, _ =>
      { success := false, error := some "ASI1 could not parse payment intent" }

/-- `_find_similar_patterns` (asi1_client.py:218-227): facts containing
"parsed" and any whitespace-token of the lowered prompt, first three. -/
def find_similar_patterns (g : KG) (prompt : String) : List String :=
  (g.facts.filter (fun f =>
    strContains f "parsed" &&
    (pySplit (String.mk (lowerL prompt.data))).any (fun w => strContains f w))).take 3

/-- `_fallback_metta_parse` (asi1_client.py:152-216).  `ctxNonempty` is
the truthiness of the `metta_context` argument (a nonempty dict whenever
core.py built it with a knowledge graph present). -/
def fallback_metta_parse (kg : Option KG) (ctxNonempty : Bool) (prompt : String) :
    PaymentIntent × Option KG :=
  let confidence_boost : Rat :=
    match kg with
    | some g => if ctxNonempty ∧ find_similar_patterns g prompt ≠ [] then mkRat 1 10 else 0
    | none => 0
  let pl := stripL (lowerL prompt.data)
  match scanPatterns pl with
  | some (amount, recipient0) =>
    if amount ≤ 0 then
      ({ success := false, error := some "Amount must be greater than 0",
         confidence := mkRat 9 10 }, kg)
    else if amount > 10000 then
      ({ success := false, error := some "Amount too large (max 10,000 USDC)",
         confidence := mkRat 9 10 }, kg)
    else
      let recipient := String.mk (lowerL recipient0.data)
      let final_confidence := ratAdd (mkRat 3 5) confidence_boost
      let kg := kg.map (fun g => add_fact g
        ("(regex-parsed " ++ prompt ++ " " ++ reprQ amount ++ " " ++ recipient
          ++ " " ++ reprQ final_confidence ++ ")"))
      ({ success := true, amount := some amount, recipient := some recipient,
         confidence := final_confidence }, kg)
  | none =>
    let kg := kg.map (fun g => add_fact g ("(parse-failed " ++ prompt ++ ")"))
    ({ success := false,
       error := some "Could not parse payment command. Try: 'Send 5 USDC to vitalik.eth'",
       confidence := 4/5 }, kg)

/-- `ASI1Client.parse_payment_intent` (asi1_client.py:78-150) for a given
HTTP outcome: status 200 decodes the body (recording an `asi1-parsed` fact
on success when a graph is present), any other status is an API error, and
a raised HTTP exception falls back to `_fallback_metta_parse`. -/
def parse_payment_intent (env : Env) (kg : Option KG) (ctxNonempty : Bool)
    (prompt : String) (http : Except String (Nat × String)) :
    PaymentIntent × Option KG :=
  match http with
  | .error _ => fallback_metta_parse kg ctxNonempty prompt
  | .ok (status, body) =>
    if status = 200 then
      let intent := from_llm_response env body
      let kg :=
        if intent.success then
          kg.map (fun g => add_fact g
            ("(asi1-parsed " ++ prompt ++ " " ++ pyReprOptQ intent.amount ++ " "
              ++ pyReprOptStr intent.recipient ++ " " ++ reprQ intent.confidence ++ ")"))
        else kg
      (intent, kg)
    else
      ({ success := false, error := some ("ASI1 API error: " ++ toString status) }, kg)

/-! ## Hex and byte encoding (prepare_transaction helpers) -/

/-- Lowercase hex digit. -/
def hexChar (n : Nat) : Char :=
  "0123456789abcdef".data.getD n '?'

/-- Hex digit value, upper or lower case. -/
def hexVal (c : Char) : Option Nat :=
  if c.isDigit then some (c.toNat - 48)
  else if 'a' ≤ c ∧ c ≤ 'f' then some (c.toNat - 87)
  else if 'A' ≤ c ∧ c ≤ 'F' then some (c.toNat - 55)
  else none

/-- `bytes.fromhex`: pairs of hex digits.  (CPython also skips ASCII
spaces between byte pairs; the addresses the code feeds in never contain
them.) -/
def bytesFromHexL : List Char → Option (List Nat)
  | [] => some []
  | [_] => none
  | a :: b :: rest => do
    let ha ← hexVal a
    let hb ← hexVal b
    let bs ← bytesFromHexL rest
    some ((ha * 16 + hb) :: bs)

/-- `bytes.hex()`: two lowercase hex digits per byte. -/
def bytesToHex (bs : List Nat) : String :=
  String.mk (bs.flatMap (fun b => [hexChar (b / 16), hexChar (b % 16)]))

/-- `n.to_bytes(len, byteorder='big')` payload for `0 ≤ n < 256^len`. -/
def natToBytesBE : Nat → Nat → List Nat
  | 0, _ => []
  | len + 1, n => natToBytesBE len (n / 256) ++ [n % 256]

/-- Python `hex(n)` for `n : Nat`: `0x` plus minimal lowercase digits. -/
def pyHex (n : Nat) : String :=
  "0x" ++ (if n = 0 then "0" else String.mk (Nat.toDigits 16 n))

/-- Python `str.zfill(w)`: left-pad with zeros to width `w`, keeping a
leading sign in front of the padding. -/
def pyZfill (s : String) (w : Nat) : String :=
  if s.length ≥ w then s
  else
    match s.data with
    | c :: rest =>
      if c == '-' ∨ c == '+' then
        String.mk (c :: List.replicate (w - s.length) '0' ++ rest)
      else String.mk (List.replicate (w - s.length) '0' ++ s.data)
    | [] => String.mk (List.replicate w '0')

/-- Python `int(x)` for a float embedded as a rational: truncation toward
zero. -/
def pyInt (q : Rat) : Int :=
  q.num.tdiv (q.den : Int)

/-! ## src/payment/core.py — PaymentCore -/

/-- An entry of `CHAIN_CONFIG` (core.py:7-23).  The `rpc` endpoints come
from `os.getenv` and are consumed only by the `Web3` constructor, which
the embedding replaces by the RPC oracles in `Env`; the Sepolia `usdc`
address is the `os.getenv` default of core.py:21. -/
structure ChainCfg where
  name : String
  usdc : String
deriving DecidableEq

/-- `CHAIN_CONFIG` (core.py:7-23). -/
def CHAIN_CONFIG : List (Nat × ChainCfg) :=
  [ (1, ⟨"Ethereum", "0xA0b86a33E6441d7aE36C7c4AF2ABfC92d11f8b99"⟩)
  , (137, ⟨"Polygon", "0x2791Bca1f2de4661ED88A30C99A7a9449Aa84174"⟩)
  , (11155111, ⟨"Sepolia", "0x1c7D4B196Cb0C7B01d743Fbc6116a902379C7238"⟩) ]

/-- `get_web3` (core.py:33-40): raises `ValueError` on a chain id absent
from `CHAIN_CONFIG`; otherwise yields the (cached) client handle, whose
construction performs no I/O. -/
def get_web3 (chain_id : Nat) : Except String ChainCfg :=
  match dictGet CHAIN_CONFIG chain_id with
  | some config => .ok config
  | none => .error ("Unsupported chain ID: " ++ toString chain_id)

/-- Parsed-intent dict as produced by `parse_intent` / `_regex_parse_intent`
(core.py:42-135).  `none` fields model both an absent key and a `None`
value; the only key whose absence the source distinguishes from `None` is
`confidence` (read through `.get` with default `0.5`, and never `None`
when present). -/
structure IntentDict where
  success : Bool
  amount : Option Rat := none
  recipient : Option String := none
  token : Option String := none
  error : Option String := none
  confidence : Option Rat := none
  parsing_method : Option String := none
  metta_context_used : Nat := 0
deriving DecidableEq

/-- `_regex_parse_intent` (core.py:85-135). -/
def regex_parse_intent (prompt : String) : IntentDict :=
  let pl := stripL (lowerL prompt.data)
  match scanPatterns pl with
  | some (amount, recipient0) =>
    if amount ≤ 0 then
      { success := false, error := some "Amount must be greater than 0" }
    else if amount > 10000 then
      { success := false, error := some "Amount too large (max 10,000 USDC)" }
    else if ¬ matchesEthGrammar recipient0 then
      { success := false, error := some "Invalid ENS name format" }
    else
      { success := true, amount := some amount,
        recipient := some (String.mk (lowerL recipient0.data)),
        token := some "USDC", confidence := some (mkRat 3 5) }
  | none =>
    { success := false,
      error := some "Could not parse payment command. Try: 'Send 5 USDC to vitalik.eth'" }

/-- `PaymentIntent.to_dict()` merged with the `parsing_method` /
`metta_context_used` annotations of core.py:58,73-74. -/
def intentToDict (i : PaymentIntent) (method : String) (ctxUsed : Nat) : IntentDict :=
  { success := i.success, amount := i.amount, recipient := i.recipient,
    token := some i.token, error := i.error, confidence := some i.confidence,
    parsing_method := some method, metta_context_used := ctxUsed }

/-- `parse_intent` (core.py:42-83) for an orchestrator with no
SingularityNET client (the configuration every claim is about; the
`singularity_client` branches of core.py:60-70 are skipped exactly as the
source skips them when the client is `None`).  The `metta_context` built
at core.py:46-52 only feeds the external oracle prompt and the fallback's
truthiness check, both captured here. -/
def parse_intent (env : Env) (kg : Option KG) (prompt : String) :
    IntentDict × Option KG :=
  let ctxUsed := match kg with
    | some g => (takeLast 5 g.facts).length
    | none => 0
  match env.asi1 with
  | some http =>
    let (intent, kg) := parse_payment_intent env kg kg.isSome prompt http
    (intentToDict intent "ASI1+MeTTa" ctxUsed, kg)
  | none =>
    let r := regex_parse_intent prompt
    ({ r with parsing_method := some "Regex+MeTTa" }, kg)

/-- `check_user_balance` (core.py:137-180): cached nonzero balance wins;
otherwise the RPC lookup, with every exception (including the
unsupported-chain `ValueError` from `get_web3`) swallowed into a `0.0`
result (core.py:178-180). -/
def check_user_balance (env : Env) (kg : Option KG) (user_address : String)
    (chain_id : Nat) : Rat × Option KG :=
  let cachedHit : Option Rat := match kg with
    | some g =>
      let cb := get_cached_balance g user_address
      if cb > 0 then some cb else none
    | none => none
  match cachedHit with
  | some cb => (cb, kg)
  | none =>
    let attempt : Except String Rat :=
      match get_web3 chain_id with
      | .error e => .error e
      | .ok _ =>
        match env.balanceOf user_address with
        | .error e => .error e
        | .ok balance =>
          match env.decimals with
          | .error e => .error e
          | .ok decimals => .ok (ratDivPow balance decimals)
    match attempt with
    | .ok balance_float =>
      (balance_float, kg.map (fun g => update_balance_cache g user_address balance_float))
    | .error _ => (0, kg)

/-- The unsigned transaction payload (core.py:207-213).  The source dict
key `to` is a Lean keyword; it is embedded as `toAddr`. -/
structure TxPayload where
  toAddr : String
  data : String
  value : String
  gasLimit : String
  chainId : String
deriving DecidableEq

/-- The gas-estimation step of `prepare_transaction` (core.py:198-205):
the chain estimate, with the fixed 100000 fallback when estimation
raises. -/
def gas_estimate_of (env : Env) : Nat :=
  match env.estimateGas with
  | .ok g => g
  | .error _ => 100000

/-- `prepare_transaction` (core.py:182-216).  `amount = none` models the
`None` amount an unvalidated oracle intent can carry (the multiplication
then raises `TypeError`).  Every failure is wrapped into the single
"Transaction preparation failed" exception of core.py:215-216; the
estimation failure alone is recovered with the fixed 100000 fallback
(core.py:204-205).  (The position suffix CPython appends to the
`fromhex` ValueError is not reproduced; no theorem evaluates that path.) -/
def prepare_transaction (env : Env) (to_addr : String) (amount : Option Rat)
    (chain_id : Nat) : Except String TxPayload :=
  let build : Except String TxPayload :=
    match get_web3 chain_id with
    | .error e => .error e
    | .ok config =>
      match amount with
      | none => .error "unsupported operand type(s) for *: 'NoneType' and 'int'"
      | some a =>
        let amount_wei := pyInt (ratScale a 6)
        match bytesFromHexL (pyZfill (String.mk (to_addr.data.drop 2)) 64).data with
        | none => .error "non-hexadecimal number found in fromhex() arg"
        | some to_address_bytes =>
          if amount_wei < 0 then
            .error "can't convert negative int to unsigned"
          else if amount_wei ≥ (2 : Int) ^ (256 : Nat) then
            .error "int too big to convert"
          else
            let amount_bytes := natToBytesBE 32 amount_wei.toNat
            let transaction_data := "0xa9059cbb" ++ bytesToHex to_address_bytes
              ++ bytesToHex amount_bytes
            .ok { toAddr := config.usdc, data := transaction_data, value := "0x0",
                  gasLimit := pyHex (gas_estimate_of env), chainId := pyHex chain_id }
  match build with
  | .ok tx => .ok tx
  | .error e => .error ("Transaction preparation failed: " ++ e)

/-- Python `s[:n]`. -/
def takeStr (n : Nat) (s : String) : String := String.mk (s.data.take n)

/-- Python `s[-n:]`. -/
def takeLastStr (n : Nat) (s : String) : String := String.mk (takeLast n s.data)

/-- Last five facts (the `knowledge_graph` annotation of the failure
responses, core.py:241,273,297,370). -/
def kgFacts5 : Option KG → List String
  | some g => takeLast 5 g.facts
  | none => []

/-- Last ten facts (core.py:344). -/
def kgFacts10 : Option KG → List String
  | some g => takeLast 10 g.facts
  | none => []

/-- The structured result of `handle_payment_request`.  Every exit of
core.py:218-375 populates `success`; the remaining fields mirror the keys
of the corresponding response dicts (`none` = key absent or `None`).
Diagnostic echoes that no component and no claim reads back
(`parsing_insights`, `resolution_insights`, `confidence_analysis`,
`reasoning_pipeline`, `singularity_ai`) are not carried. -/
structure Result where
  success : Bool
  error : Option String := none
  intent : Option IntentDict := none
  recipient_address : Option String := none
  user_balance : Option Rat := none
  transaction : Option TxPayload := none
  summary : Option String := none
  confidence : Option Rat := none
  metta_reasoning : Option (List String) := none
  metta_query_result : Option (List String) := none
  ens_query_result : Option (List String) := none
  can_pay_query_result : Option (List String) := none
  suspicious_result : Option (List String) := none
  knowledge_graph : List String := []
  warning : Option String := none
deriving DecidableEq

/-- The `if self.metta_kg: result = self.metta_kg.query(...)` pattern of
core.py:254-255, 288-289 and 308-309: run the query when a knowledge
graph is present, otherwise keep the empty result. -/
def kg_query (kg : Option KG) (q : String) : List String × Option KG :=
  match kg with
  | some g => ((query g q).1, some (query g q).2)
  | none => ([], none)

/-- The cache-hit confidence boost of core.py:256-258. -/
def ens_boost_of (kg : Option KG) (recipient : Option String) : Rat :=
  match kg, recipient with
  | some g, some r => if dictMem g.ens_cache r then mkRat 1 10 else 0
  | _, _ => 0

/-- The resolution step of core.py:260-263: delegate to the resolver when
one is wired in.  (A `None` recipient from an unvalidated oracle intent
makes `ens_name.lower()` raise inside `resolve_ens`'s `try`, which
returns `None`.) -/
def resolve_step (env : Env) (kg : Option KG) (recipient : Option String) :
    Option String × Option KG × Bool :=
  if env.hasResolver then
    match recipient with
    | some r => resolve_ens kg r
    | none => (none, kg, false)
  else (none, kg, false)

/-- The post-parse stages of `handle_payment_request` (core.py:249-375):
ENS query, resolution, balance check, can-pay gate, suspicious-pattern
check and transaction build.  Factored out of the request handler so the
pipeline can be reasoned about for any parsed intent. -/
def payment_pipeline (env : Env) (kg : Option KG)
    (metta_reasoning : Option (List String)) (intent : IntentDict)
    (user_address : String) (chain_id : Nat) : Result × Option KG :=
  -- core.py:249-258: ENS validation query (the cache-hit confidence boost
  -- is ens_boost_of, applied where the confidence is reported)
  match kg_query kg ("(query (resolve-ens " ++ pyReprOptStr intent.recipient ++ "))") with
  | (ens_result, kg1) =>
  -- core.py:260-263: resolve ENS
  match resolve_step env kg1 intent.recipient with
  | (recipient_address, kg2, _) =>
  -- core.py:265-278: `if not recipient_address` (falsy: None or "")
  if (recipient_address.getD "") = "" then
    (fun kg3 =>
      ({ success := false,
         error := some ("Could not resolve ENS name: " ++ pyReprOptStr intent.recipient),
         metta_reasoning := metta_reasoning, metta_query_result := some ens_result,
         knowledge_graph := kgFacts5 kg3 }, kg3))
      (kg2.map (fun g => add_fact g
        ("(ens-resolution-failed " ++ pyReprOptStr intent.recipient ++ ")")))
  else
  -- core.py:280-281: balance check
  match check_user_balance env kg2 user_address chain_id with
  | (user_balance, kg3) =>
  -- core.py:283-289: can-pay query
  match kg_query kg3 ("(query (can-pay " ++ user_address ++ " "
      ++ pyReprOptQ intent.amount ++ "))") with
  | (can_pay_result, kg4) =>
  -- core.py:291-303: insufficient-balance gate (via the derived fact)
  if kg4.isSome ∧ strContains (pyStrList can_pay_result) "insufficient-balance" then
    ({ success := false,
       error := some ("Insufficient balance. You have " ++ format2 user_balance
         ++ " USDC, need " ++ pyReprOptQ intent.amount ++ " USDC"),
       metta_reasoning := metta_reasoning, metta_query_result := some can_pay_result,
       knowledge_graph := kgFacts5 kg4 }, kg4)
  else
  -- core.py:305-309: suspicious-pattern query
  match kg_query kg4 ("(query (suspicious-pattern " ++ user_address ++ " "
      ++ pyReprOptQ intent.amount ++ "))") with
  | (suspicious_result, kg5) =>
  -- core.py:311-375: build the transaction
  match prepare_transaction env (recipient_address.getD "") intent.amount chain_id with
  | .ok transaction =>
    (fun kg6 =>
      ({ success := true, intent := some intent,
         recipient_address := some (recipient_address.getD ""),
         user_balance := some user_balance, transaction := some transaction,
         summary := some ("Send " ++ pyReprOptQ intent.amount ++ " USDC to "
           ++ pyReprOptStr intent.recipient ++ " ("
           ++ takeStr 6 (recipient_address.getD "") ++ "..."
           ++ takeLastStr 4 (recipient_address.getD "") ++ ")"),
         confidence := some (ratAdd (intent.confidence.getD (mkRat 1 2))
           (ens_boost_of kg1 intent.recipient)),
         metta_reasoning := metta_reasoning, ens_query_result := some ens_result,
         can_pay_query_result := some can_pay_result,
         suspicious_result := some suspicious_result,
         knowledge_graph := kgFacts10 kg6,
         warning :=
           if kg6.isSome ∧ strContains (pyStrList suspicious_result) "suspicious-pattern"
           then some "Unusual payment pattern detected. Please verify recipient."
           else none }, kg6))
      (kg5.map (fun g => add_fact g
        ("(payment-prepared " ++ user_address ++ " " ++ pyReprOptQ intent.amount
          ++ " " ++ pyReprOptStr intent.recipient ++ ")")))
  | .error e =>
    (fun kg6 =>
      ({ success := false, error := some e, metta_reasoning := metta_reasoning,
         knowledge_graph := kgFacts5 kg6 }, kg6))
      (kg5.map (fun g => add_fact g
        ("(payment-failed " ++ user_address ++ " " ++ e ++ ")")))

/-- `handle_payment_request` (core.py:218-375), for an orchestrator with
no SingularityNET client.  The returned pair is the response dict and the
final knowledge-graph state. -/
def handle_payment_request (env : Env) (kg0 : Option KG) (prompt user_address : String)
    (chain_id : Nat) : Result × Option KG :=
  -- core.py:221-230: user-history update and MeTTa reasoning context
  let step0 : Option (List String) × Option KG :=
    match kg0 with
    | some g =>
      let g := update_user_history g user_address ⟨prompt, chain_id, 1⟩
      let (mr, g) := get_payment_reasoning g prompt user_address
      (some mr, some g)
    | none => (none, none)
  let metta_reasoning := step0.1
  -- core.py:232-234: parse intent
  let (intent, kg) := parse_intent env step0.2 prompt
  if ¬ intent.success then
    -- core.py:236-247
    ({ success := intent.success, error := intent.error, intent := some intent,
       metta_reasoning := metta_reasoning, knowledge_graph := kgFacts5 kg }, kg)
  else
    payment_pipeline env kg metta_reasoning intent user_address chain_id

/-- A closed environment used by the concrete instantiations: no ASI1
client, a zero on-chain balance, failing gas estimation. -/
def envA : Env :=
  { asi1 := none
    jsonLoads := fun _ => .error "json unused"
    balanceOf := fun _ => .ok 0
    decimals := .ok 6
    estimateGas := .error "gas estimation unavailable"
    hasResolver := true }

/-! ## Supporting lemmas -/

theorem ratAdd_eq (a b : Rat) : ratAdd a b = a + b :=
  (Rat.add_def' a b).symm

theorem ratScale_eq (q : Rat) (k : Nat) : ratScale q k = q * (10 : Rat) ^ k := by
  unfold ratScale
  rw [Rat.mkRat_eq_div]
  push_cast
  rw [mul_div_right_comm, Rat.num_div_den]

theorem ratDivPow_eq (n k : Nat) : ratDivPow n k = (n : Rat) / (10 : Rat) ^ k := by
  unfold ratDivPow
  rw [Rat.mkRat_eq_div]
  push_cast
  rfl

theorem add_fact_balance_cache (g : KG) (f : String) :
    (add_fact g f).balance_cache = g.balance_cache := by
  unfold add_fact; split <;> rfl

theorem add_fact_ens_cache (g : KG) (f : String) :
    (add_fact g f).ens_cache = g.ens_cache := by
  unfold add_fact; split <;> rfl

theorem mem_add_fact_self (g : KG) (f : String) : f ∈ (add_fact g f).facts := by
  unfold add_fact
  split
  · next h => exact List.elem_iff.mp h
  · simp

theorem update_user_history_balance_cache (g : KG) (u : String) (d : UserData) :
    (update_user_history g u d).balance_cache = g.balance_cache := by
  unfold update_user_history; rw [add_fact_balance_cache]

theorem update_ens_cache_balance_cache (g : KG) (n a : String) :
    (update_ens_cache g n a).balance_cache = g.balance_cache := by
  unfold update_ens_cache; rw [add_fact_balance_cache]

theorem query_can_pay_bc (g : KG) (q : String) (r : List String × KG)
    (h : query_can_pay g q = .ok r) : r.2.balance_cache = g.balance_cache := by
  unfold query_can_pay at h
  split at h <;> try (injection h with h; subst h; rfl)
  split at h
  · exact absurd h (by simp)
  · dsimp only at h
    split at h <;> (injection h with h; subst h; exact add_fact_balance_cache ..)

theorem query_resolve_ens_bc (g : KG) (q : String) (r : List String × KG)
    (h : query_resolve_ens g q = .ok r) : r.2.balance_cache = g.balance_cache := by
  unfold query_resolve_ens at h
  split at h <;> try (injection h with h; subst h; rfl)
  dsimp only at h
  split at h <;> (injection h with h; subst h)
  · exact add_fact_balance_cache ..
  · rfl

theorem query_payment_safe_bc (g : KG) (q : String) (r : List String × KG)
    (h : query_payment_safe g q = .ok r) : r.2.balance_cache = g.balance_cache := by
  unfold query_payment_safe at h
  split at h <;> try (injection h with h; subst h; rfl)
  split at h
  · exact absurd h (by simp)
  · dsimp only at h
    split at h <;> (injection h with h; subst h; exact add_fact_balance_cache ..)

theorem query_suspicious_pattern_bc (g : KG) (q : String) (r : List String × KG)
    (h : query_suspicious_pattern g q = .ok r) : r.2.balance_cache = g.balance_cache := by
  unfold query_suspicious_pattern at h
  split at h <;> try (injection h with h; subst h; rfl)
  split at h
  · exact absurd h (by simp)
  · dsimp only at h
    split at h <;> (injection h with h; subst h; exact add_fact_balance_cache ..)

theorem query_balance_cache (g : KG) (q : String) :
    ((query g q).2).balance_cache = g.balance_cache := by
  unfold query
  split
  · next r hr =>
    split at hr
    · exact query_can_pay_bc _ _ _ hr
    · split at hr
      · exact query_resolve_ens_bc _ _ _ hr
      · split at hr
        · exact query_payment_safe_bc _ _ _ hr
        · split at hr
          · exact query_suspicious_pattern_bc _ _ _ hr
          · injection hr with hr; subst hr; rfl
  · rfl

theorem get_cached_balance_add_fact (g : KG) (f u : String) :
    get_cached_balance (add_fact g f) u = get_cached_balance g u := by
  unfold get_cached_balance; rw [add_fact_balance_cache]

theorem dictGet_dictSet_self [BEq α] [LawfulBEq α] (d : List (α × β)) (k : α) (v : β) :
    dictGet (dictSet d k v) k = some v := by
  induction d with
  | nil => simp [dictGet, dictSet]
  | cons p rest ih =>
    unfold dictSet
    split
    · simp [dictGet]
    · next h => simpa [dictGet, List.find?, h] using ih

theorem takeWhile1_some {p : Char → Bool} {l t r : List Char}
    (h : takeWhile1 p l = some (t, r)) :
    t = l.takeWhile p ∧ r = l.dropWhile p ∧ t ≠ [] := by
  unfold takeWhile1 at h
  dsimp only at h
  split at h
  · exact absurd h (by simp)
  · next hne =>
    injection h with h
    injection h with h1 h2
    subst h1; subst h2
    exact ⟨rfl, rfl, by simpa [List.isEmpty_iff] using hne⟩

theorem matchLit_some : ∀ {pat s r : List Char}, matchLit pat s = some r → s = pat ++ r := by
  intro pat
  induction pat with
  | nil => intro s r h; simp [matchLit] at h; simp [h]
  | cons p ps ih =>
    intro s r h
    cases s with
    | nil => exact absurd h (by simp [matchLit])
    | cons c cs =>
      unfold matchLit at h
      split at h
      · next hb => have := eq_of_beq hb; subst this; simpa using ih h
      · exact absurd h (by simp)

theorem takeWhile_append_stop {p : Char → Bool} (w : List Char) (x : Char) (t : List Char)
    (hw : ∀ c ∈ w, p c = true) (hx : p x = false) :
    (w ++ x :: t).takeWhile p = w ∧ (w ++ x :: t).dropWhile p = x :: t := by
  induction w with
  | nil => simp [List.takeWhile_cons, List.dropWhile_cons, hx]
  | cons a as ih =>
    have ha : p a = true := hw a (by simp)
    have ihh := ih (fun c hc => hw c (by simp [hc]))
    simp [List.takeWhile_cons, List.dropWhile_cons, ha, ihh.1, ihh.2]

theorem grammar_of_shape {w : List Char} (hne : w ≠ [])
    (hcl : ∀ c ∈ w, isClassChar c = true) :
    matchesEthGrammar (String.mk (w ++ ".eth".data)) = true := by
  have hdot : isClassChar '.' = false := by decide
  have hsplit := takeWhile_append_stop w '.' "eth".data hcl hdot
  unfold matchesEthGrammar
  have hdata : (String.mk (w ++ ".eth".data)).data = w ++ '.' :: "eth".data := rfl
  rw [hdata]
  unfold takeWhile1
  dsimp only
  rw [hsplit.1, hsplit.2]
  simp [List.isEmpty_iff, hne]

theorem matchAlias_some {l : List Char} {cap : String} {rest : List Char}
    (h : matchAlias l = some (cap, rest)) :
    ∃ w, w ≠ [] ∧ (∀ c ∈ w, isClassChar c = true) ∧ cap = String.mk (w ++ ".eth".data) := by
  unfold matchAlias at h
  split at h
  · exact absurd h (by simp)
  · next w r htw =>
    split at h
    · exact absurd h (by simp)
    · injection h with h
      injection h with hcap _
      obtain ⟨ht, _, hne⟩ := takeWhile1_some htw
      refine ⟨w, hne, ?_, hcap.symm⟩
      intro c hc
      exact List.mem_takeWhile_imp (ht ▸ hc)

theorem matchesEthGrammar_of_matchAlias {l : List Char} {cap : String} {rest : List Char}
    (h : matchAlias l = some (cap, rest)) : matchesEthGrammar cap = true := by
  obtain ⟨w, hne, hcl, hcap⟩ := matchAlias_some h
  rw [hcap]
  exact grammar_of_shape hne hcl

theorem isClassChar_lowerC {c : Char} (h : isClassChar c = true) :
    isClassChar (lowerC c) = true := by
  unfold lowerC
  cases hf : lowerPairs.find? (fun p => p.1 == c) with
  | none => simpa using h
  | some p =>
    have hp : p ∈ lowerPairs := List.mem_of_find?_eq_some hf
    have hall : ∀ q ∈ lowerPairs, isClassChar q.2 = true := by decide
    simpa using hall p hp

theorem matchesEthGrammar_lower {s : String} (h : matchesEthGrammar s = true) :
    matchesEthGrammar (String.mk (lowerL s.data)) = true := by
  unfold matchesEthGrammar at h
  split at h
  · next t rest htw =>
    have hrest : rest = ".eth".data := eq_of_beq h
    obtain ⟨ht, hr, hne⟩ := takeWhile1_some htw
    have hdecomp : s.data = t ++ rest := by
      rw [ht, hr]; exact (List.takeWhile_append_dropWhile (p := isClassChar) (l := s.data)).symm
    have hlow : List.map lowerC ".eth".data = ".eth".data := by decide
    have hmap : lowerL s.data = t.map lowerC ++ ".eth".data := by
      rw [hdecomp, hrest]
      unfold lowerL
      rw [List.map_append, hlow]
    rw [hmap]
    refine grammar_of_shape ?_ ?_
    · simpa using hne
    · intro c hc
      obtain ⟨d, hd, hdc⟩ := List.mem_map.mp hc
      have : isClassChar d = true := List.mem_takeWhile_imp (ht ▸ hd)
      exact hdc ▸ isClassChar_lowerC this
  · exact absurd h (by simp)

theorem searchPos_some {m : List Char → Option α} :
    ∀ {l : List Char} {x : α}, searchPos m l = some x → ∃ s, m s = some x := by
  intro l
  induction l with
  | nil => intro x h; exact ⟨[], by simpa [searchPos] using h⟩
  | cons c rest ih =>
    intro x h
    unfold searchPos at h
    split at h
    · next hm => exact ⟨c :: rest, by rw [hm]; exact h⟩
    · exact ih h

theorem matchVerbAt_grammar {v : String} {l : List Char} {a : Rat} {r : String}
    (h : matchVerbAt v l = some (a, r)) : matchesEthGrammar r = true := by
  unfold matchVerbAt at h
  repeat' split at h
  all_goals cases h
  exact matchesEthGrammar_of_matchAlias (by assumption)

theorem matchGiveAt_grammar {l : List Char} {a : Rat} {r : String}
    (h : matchGiveAt l = some (a, r)) : matchesEthGrammar r = true := by
  unfold matchGiveAt at h
  split at h
  · exact absurd h (by simp)
  next r1 h1 =>
  split at h
  · exact absurd h (by simp)
  next r2 h2 =>
  split at h
  · exact absurd h (by simp)
  next rcp r3 hma =>
  have hg := matchesEthGrammar_of_matchAlias hma
  repeat' split at h
  all_goals cases h
  exact hg

theorem scanPatterns_grammar {l : List Char} {a : Rat} {r : String}
    (h : scanPatterns l = some (a, r)) : matchesEthGrammar r = true := by
  unfold scanPatterns at h
  split at h
  · next hs =>
    injection h with h; subst h
    obtain ⟨s, hm⟩ := searchPos_some hs
    exact matchVerbAt_grammar hm
  · split at h
    · next hs =>
      injection h with h; subst h
      obtain ⟨s, hm⟩ := searchPos_some hs
      exact matchVerbAt_grammar hm
    · split at h
      · next hs =>
        injection h with h; subst h
        obtain ⟨s, hm⟩ := searchPos_some hs
        exact matchVerbAt_grammar hm
      · obtain ⟨s, hm⟩ := searchPos_some h
        exact matchGiveAt_grammar hm

theorem staticVal_ne_empty {s a : String}
    (h : dictGet staticEnsMappings s = some a) : a ≠ "" := by
  unfold dictGet at h
  cases hf : staticEnsMappings.find? (fun p => p.1 == s) with
  | none => rw [hf] at h; exact absurd h (by simp)
  | some p =>
    rw [hf] at h
    have hp : p ∈ staticEnsMappings := List.mem_of_find?_eq_some hf
    have hall : ∀ q ∈ staticEnsMappings, q.2 ≠ "" := by decide
    have : p.2 = a := by simpa using h
    exact this ▸ hall p hp

theorem staticVal_shape {s a : String}
    (h : dictGet staticEnsMappings s = some a) :
    a.data.length = 42 ∧ ∀ c ∈ a.data.drop 2, (hexVal c).isSome := by
  unfold dictGet at h
  cases hf : staticEnsMappings.find? (fun p => p.1 == s) with
  | none => rw [hf] at h; exact absurd h (by simp)
  | some p =>
    rw [hf] at h
    have hp : p ∈ staticEnsMappings := List.mem_of_find?_eq_some hf
    have hall : ∀ q ∈ staticEnsMappings,
        q.2.data.length = 42 ∧ ∀ c ∈ q.2.data.drop 2, (hexVal c).isSome := by decide
    have hpa : p.2 = a := by simpa using h
    exact hpa ▸ hall p hp

theorem bytesFromHexL_isSome : ∀ (l : List Char),
    (∀ c ∈ l, (hexVal c).isSome) → l.length % 2 = 0 →
    (bytesFromHexL l).isSome
  | [], _, _ => by simp [bytesFromHexL]
  | [_], _, h2 => by simp at h2
  | a :: b :: rest, h1, h2 => by
    have ha := h1 a (by simp)
    have hb := h1 b (by simp)
    have ih := bytesFromHexL_isSome rest
      (fun c hc => h1 c (by simp [hc]))
      (by simp only [List.length_cons] at h2; omega)
    obtain ⟨va, hva⟩ := Option.isSome_iff_exists.mp ha
    obtain ⟨vb, hvb⟩ := Option.isSome_iff_exists.mp hb
    obtain ⟨vs, hvs⟩ := Option.isSome_iff_exists.mp ih
    simp [bytesFromHexL, hva, hvb, hvs]

theorem regex_parse_error (prompt : String) :
    (regex_parse_intent prompt).success = false →
    ((regex_parse_intent prompt).error).isSome := by
  unfold regex_parse_intent
  dsimp only
  cases hscan : scanPatterns (stripL (lowerL prompt.data)) with
  | none => intro _; rfl
  | some pr =>
    obtain ⟨a, rcp⟩ := pr
    dsimp only
    by_cases h1 : a ≤ 0
    · rw [if_pos h1]; intro _; rfl
    · rw [if_neg h1]
      by_cases h2 : a > 10000
      · rw [if_pos h2]; intro _; rfl
      · rw [if_neg h2]
        by_cases h3 : matchesEthGrammar rcp
        · rw [if_neg (by simp [h3])]; intro h; simp at h
        · rw [if_pos (by simp [h3])]; intro _; rfl

theorem payment_pipeline_error (env : Env) (kg : Option KG)
    (mr : Option (List String)) (intent : IntentDict) (user : String) (chain : Nat)
    (r : Result × Option KG)
    (hr : payment_pipeline env kg mr intent user chain = r) :
    r.1.success = false → (r.1.error).isSome := by
  unfold payment_pipeline at hr
  repeat' split at hr
  all_goals (subst hr; intro h)
  all_goals
    first
      | rfl
      | (simp at h)

/-! ## Helper lemmas for the orchestrator walks

The amount bounds carried by a successful fallback parse, kernel-level
facts about `pyInt` and the balance check, and the string/list lemmas
needed to evaluate the knowledge-graph can-pay query on a symbolic user
address. -/

theorem regex_success_amount {prompt : String} {a : Rat}
    (hs : (regex_parse_intent prompt).success = true)
    (hamt : (regex_parse_intent prompt).amount = some a) :
    0 < a ∧ a ≤ 10000 := by
  unfold regex_parse_intent at hs hamt
  cases hscan : scanPatterns (stripL (lowerL prompt.data)) with
  | none => simp [hscan] at hs
  | some pr =>
    obtain ⟨a0, rcp⟩ := pr
    by_cases h1 : a0 ≤ 0
    · simp [hscan, h1] at hs
    · by_cases h2 : a0 > 10000
      · simp [hscan, h1, h2] at hs
      · by_cases h3 : matchesEthGrammar rcp
        · simp [hscan, h1, h2, h3] at hamt
          exact hamt ▸ ⟨lt_of_not_le h1, le_of_not_lt h2⟩
        · simp [hscan, h1, h2, h3] at hs

theorem pyInt_eq_floor {q : Rat} (h : 0 ≤ q) : pyInt q = ⌊q⌋ := by
  unfold pyInt
  rw [Int.tdiv_eq_ediv (Rat.num_nonneg.mpr h) (by positivity)]
  exact Rat.floor_def.symm

theorem pyInt_ratScale_lt {a : Rat} (h0 : 0 ≤ a) (h1 : a ≤ 10000) :
    pyInt (ratScale a 6) < (2 : Int) ^ (256 : Nat) := by
  have hnn : (0 : Rat) ≤ ratScale a 6 := by rw [ratScale_eq]; positivity
  rw [pyInt_eq_floor hnn]
  have hle : ratScale a 6 ≤ (10000000000 : Rat) := by
    rw [ratScale_eq]
    calc a * (10 : Rat) ^ (6 : Nat) ≤ 10000 * (10 : Rat) ^ (6 : Nat) :=
          mul_le_mul_of_nonneg_right h1 (by positivity)
      _ = 10000000000 := by norm_num
  calc ⌊ratScale a 6⌋ ≤ ⌊(10000000000 : Rat)⌋ := Int.floor_le_floor hle
    _ = 10000000000 := by
        rw [show (10000000000 : Rat) = ((10000000000 : Int) : Rat) by norm_num]
        exact Int.floor_intCast 10000000000
    _ < (2 : Int) ^ (256 : Nat) := by norm_num

theorem check_user_balance_none (env : Env) (user : String) (chain : Nat) :
    (check_user_balance env none user chain).2 = none := by
  unfold check_user_balance
  dsimp only
  split <;> simp


theorem prepare_transaction_ok (env : Env) (to_addr : String) (a : Rat) (chain : Nat) (cfg : ChainCfg)
    (hcfg : dictGet CHAIN_CONFIG chain = some cfg)
    (hlen : to_addr.data.length = 42)
    (hhex : ∀ c ∈ to_addr.data.drop 2, (hexVal c).isSome)
    (ha : 0 ≤ a)
    (hwei : pyInt (ratScale a 6) < (2 : Int) ^ (256 : Nat)) :
    ∃ tx bs, prepare_transaction env to_addr (some a) chain = .ok tx ∧
      bytesFromHexL (pyZfill (String.mk (to_addr.data.drop 2)) 64).data = some bs ∧
      tx.data = "0xa9059cbb" ++ bytesToHex bs
        ++ bytesToHex (natToBytesBE 32 (pyInt (ratScale a 6)).toNat) ∧
      tx.value = "0x0" ∧ tx.toAddr = cfg.usdc ∧ tx.chainId = pyHex chain ∧
      ratScale a 6 = a * (10 : Rat) ^ (6 : Nat) := by
  have hweb : get_web3 chain = .ok cfg := by unfold get_web3; rw [hcfg]
  have hwnn : 0 ≤ pyInt (ratScale a 6) := by
    unfold pyInt
    refine Int.tdiv_nonneg ?_ (by positivity)
    rw [Rat.num_nonneg, ratScale_eq]
    positivity
  have hdropL : (to_addr.data.drop 2).length = 40 := by
    rw [List.length_drop, hlen]
  have hzfill : pyZfill (String.mk (to_addr.data.drop 2)) 64
      = String.mk (List.replicate 24 '0' ++ to_addr.data.drop 2) := by
    cases hd : to_addr.data.drop 2 with
    | nil => rw [hd] at hdropL; simp at hdropL
    | cons c rest =>
      have hchex : (hexVal c).isSome := hhex c (by rw [hd]; simp)
      have hc1 : (c == '-') = false := by
        cases hcb : c == '-'
        · rfl
        · rw [eq_of_beq hcb] at hchex; simp [hexVal] at hchex
      have hc2 : (c == '+') = false := by
        cases hcb : c == '+'
        · rfl
        · rw [eq_of_beq hcb] at hchex; simp [hexVal] at hchex
      have hlen40 : (String.mk (c :: rest)).length = 40 := by
        show (c :: rest).length = 40
        rw [← hd]; exact hdropL
      have hlt : ¬ ((String.mk (c :: rest)).length ≥ 64) := by rw [hlen40]; omega
      have hrep : 64 - (String.mk (c :: rest)).length = 24 := by rw [hlen40]
      unfold pyZfill
      rw [if_neg hlt]
      dsimp only
      rw [if_neg (by simp [hc1, hc2]), hrep]
  have hall : ∀ c ∈ (pyZfill (String.mk (to_addr.data.drop 2)) 64).data,
      (hexVal c).isSome := by
    rw [hzfill]
    intro c hc
    rcases List.mem_append.mp hc with hrep | hdrop
    · have : c = '0' := List.eq_of_mem_replicate hrep
      rw [this]; decide
    · exact hhex c hdrop
  have hlen64 : (pyZfill (String.mk (to_addr.data.drop 2)) 64).data.length % 2 = 0 := by
    rw [hzfill]
    simp [hdropL]
  obtain ⟨bs, hbs⟩ := Option.isSome_iff_exists.mp
    (bytesFromHexL_isSome _ hall hlen64)
  refine ⟨⟨cfg.usdc,
      "0xa9059cbb" ++ bytesToHex bs
        ++ bytesToHex (natToBytesBE 32 (pyInt (ratScale a 6)).toNat),
      "0x0", pyHex (gas_estimate_of env), pyHex chain⟩, bs, ?_, hbs, rfl, rfl, rfl, rfl,
    ratScale_eq a 6⟩
  unfold prepare_transaction
  dsimp only
  simp only [hweb, hbs]
  rw [if_neg (not_lt.mpr hwnn), if_neg (not_le.mpr hwei)]

theorem strData_append (a b : String) : (a ++ b).data = a.data ++ b.data := rfl

theorem strExt {a b : String} (h : a.data = b.data) : a = b := by
  cases a
  cases b
  exact congrArg String.mk h

theorem strMk_data (s : String) : String.mk s.data = s := by
  cases s
  rfl

theorem startsWithL_nil (l : List Char) : startsWithL l [] = true := by
  cases l <;> rfl

theorem startsWithL_append : ∀ (h p t : List Char), startsWithL h p = true →
    startsWithL (h ++ t) p = true
  | h, [], t, _ => startsWithL_nil (h ++ t)
  | [], _ :: _, _, hp => by simp [startsWithL] at hp
  | a :: as, b :: bs, t, hp => by
    unfold startsWithL at hp
    rw [Bool.and_eq_true] at hp
    show (a == b && startsWithL (as ++ t) bs) = true
    rw [Bool.and_eq_true]
    exact ⟨hp.1, startsWithL_append as bs t hp.2⟩

theorem containsSubL_nil_needle (h : List Char) : containsSubL h [] = true := by
  cases h <;> simp [containsSubL, startsWithL]

theorem containsSubL_append_left : ∀ (h t p : List Char),
    containsSubL h p = true → containsSubL (h ++ t) p = true
  | [], t, p, hp => by
    cases p with
    | nil => exact containsSubL_nil_needle t
    | cons b bs => simp [containsSubL, startsWithL] at hp
  | a :: as, t, p, hp => by
    unfold containsSubL at hp
    rw [Bool.or_eq_true] at hp
    show (startsWithL ((a :: as) ++ t) p || containsSubL (as ++ t) p) = true
    rw [Bool.or_eq_true]
    cases hp with
    | inl hs =>
      exact Or.inl (startsWithL_append (a :: as) p t hs)
    | inr hc =>
      exact Or.inr (containsSubL_append_left as t p hc)

theorem splitWsGo_nonws : ∀ (u s acc : List Char),
    (∀ c ∈ u, isWsC c = false) →
    splitWsGo (u ++ s) acc = splitWsGo s (u.reverse ++ acc)
  | [], s, acc, _ => by simp
  | c :: cs, s, acc, hu => by
    have hc : isWsC c = false := hu c (by simp)
    have h1 : splitWsGo ((c :: cs) ++ s) acc = splitWsGo (cs ++ s) (c :: acc) := by
      show splitWsGo (c :: (cs ++ s)) acc = _
      rw [splitWsGo, hc]
      simp
    rw [h1, splitWsGo_nonws cs s (c :: acc) (fun d hd => hu d (by simp [hd]))]
    simp

theorem splitWsGo_canpay_chunks (u : List Char) (hne : u ≠ [])
    (hu : ∀ c ∈ u, isWsC c = false) :
    splitWsGo (" query  can-pay ".data ++ (u ++ " 5.0  ".data)) []
      = ["query", "can-pay", String.mk u, "5.0"] := by
  have h1 : splitWsGo (" query  can-pay ".data ++ (u ++ " 5.0  ".data)) []
      = "query" :: "can-pay" :: splitWsGo (u ++ " 5.0  ".data) [] := rfl
  have hacc : (u.reverse ++ ([] : List Char)).isEmpty = false := by
    simp [List.isEmpty_iff, hne]
  have h2 : splitWsGo (" 5.0  ".data) (u.reverse ++ []) = [String.mk u, "5.0"] := by
    show splitWsGo (' ' :: "5.0  ".data) (u.reverse ++ []) = _
    rw [splitWsGo]
    simp only [show isWsC ' ' = true from rfl, eq_self_iff_true, if_true, hacc,
      Bool.false_eq_true, if_false]
    rw [show splitWsGo ("5.0  ".data) [] = ["5.0"] from rfl]
    simp
  rw [h1, splitWsGo_nonws u (" 5.0  ".data) [] hu, h2]

theorem canpay_query_data (user : String) :
    ("(query (can-pay " ++ user ++ " " ++ "5.0" ++ "))").data
      = "(query (can-pay ".data ++ (user.data ++ " 5.0))".data) := by
  simp only [strData_append, List.append_assoc]
  rfl

theorem pySplit_canpay (user : String) (hne : user.data ≠ [])
    (hu : ∀ c ∈ user.data, isWsC c = false ∧ c ≠ '(' ∧ c ≠ ')') :
    pySplit (replParens ("(query (can-pay " ++ user ++ " " ++ "5.0" ++ "))"))
      = ["query", "can-pay", user, "5.0"] := by
  have hdata : (replParens ("(query (can-pay " ++ user ++ " " ++ "5.0" ++ "))")).data
      = " query  can-pay ".data ++ (user.data ++ " 5.0  ".data) := by
    show ((("(query (can-pay " ++ user ++ " " ++ "5.0" ++ "))").data).map
        (fun c => if c == '(' || c == ')' then ' ' else c)) = _
    rw [canpay_query_data, List.map_append, List.map_append]
    have hmap_user : user.data.map (fun c => if c == '(' || c == ')' then ' ' else c)
        = user.data := by
      have hcc : ∀ c ∈ user.data,
          (if c == '(' || c == ')' then ' ' else c) = id c := by
        intro c hc
        obtain ⟨-, h1, h2⟩ := hu c hc
        simp [h1, h2]
      rw [List.map_congr_left hcc, List.map_id]
    rw [hmap_user]
    rfl
  unfold pySplit
  rw [hdata, splitWsGo_canpay_chunks user.data hne (fun c hc => (hu c hc).1),
    strMk_data]

theorem strContains_canpay (user : String) :
    strContains ("(query (can-pay " ++ user ++ " " ++ "5.0" ++ "))") "can-pay" = true := by
  unfold strContains
  rw [canpay_query_data]
  exact containsSubL_append_left _ _ _ (by decide)

theorem insuff_fact_data (user : String) :
    (pyStrList ["(insufficient-balance " ++ user ++ " 5.0 3.0)"]).data
      = "['(insufficient-balance ".data ++ (user.data ++ " 5.0 3.0)']".data) := by
  unfold pyStrList pyStrListGo
  simp only [strData_append, List.append_assoc]
  rfl

theorem strContains_insuff (user : String) :
    strContains (pyStrList ["(insufficient-balance " ++ user ++ " 5.0 3.0)"])
      "insufficient-balance" = true := by
  unfold strContains
  rw [insuff_fact_data]
  exact containsSubL_append_left _ _ _ (by decide)

theorem get_cached_balance_congr {g g2 : KG} (h : g2.balance_cache = g.balance_cache)
    (u : String) : get_cached_balance g2 u = get_cached_balance g u := by
  unfold get_cached_balance
  rw [h]

theorem resolve_ens_some_static (g : KG) (r : String)
    (hstatic : (dictGet staticEnsMappings (String.mk (lowerL r.data))).isSome) :
    ∃ A g2 b, resolve_ens (some g) r = (some A, some g2, b) ∧ A ≠ "" ∧
      g2.balance_cache = g.balance_cache := by
  unfold resolve_ens
  dsimp only
  by_cases hc : get_cached_ens g r ≠ ""
  · refine ⟨get_cached_ens g r, g, false, ?_, hc, rfl⟩
    rw [if_pos hc]
  · rw [if_neg hc]
    obtain ⟨addr, haddr⟩ := Option.isSome_iff_exists.mp hstatic
    rw [haddr]
    exact ⟨addr, update_ens_cache g r addr, true, rfl, staticVal_ne_empty haddr,
      update_ens_cache_balance_cache g r addr⟩

theorem check_user_balance_hit (env : Env) (g : KG) (user : String) (chain : Nat)
    (h : 0 < get_cached_balance g user) :
    check_user_balance env (some g) user chain = (get_cached_balance g user, some g) := by
  unfold check_user_balance
  dsimp only
  rw [if_pos h]

theorem query_canpay_insufficient (g : KG) (user : String)
    (hne : user.data ≠ [])
    (hu : ∀ c ∈ user.data, isWsC c = false ∧ c ≠ '(' ∧ c ≠ ')')
    (hbal : get_cached_balance g user = 3) :
    query g ("(query (can-pay " ++ user ++ " " ++ "5.0" ++ "))")
      = (["(insufficient-balance " ++ user ++ " 5.0 3.0)"],
         add_fact g ("(insufficient-balance " ++ user ++ " 5.0 3.0)")) := by
  have hdisp := strContains_canpay user
  have hsplit := pySplit_canpay user hne hu
  unfold query
  rw [if_pos hdisp]
  unfold query_can_pay
  rw [hsplit]
  dsimp only
  rw [(by decide : pyFloatParse "5.0" = some (5 : Rat))]
  dsimp only
  rw [hbal]
  rw [if_neg (by norm_num : ¬ ((3 : Rat) ≥ 5))]
  rw [(by decide : reprQ 5 = "5.0"), (by decide : reprQ 3 = "3.0")]
  have hass : "(insufficient-balance " ++ user ++ " " ++ "5.0" ++ " " ++ "3.0" ++ ")"
      = "(insufficient-balance " ++ user ++ " 5.0 3.0)" := by
    apply strExt
    simp only [strData_append, List.append_assoc]
    rfl
  rw [hass]


/-! ## Claims -/

/-- C6: `add_fact` is idempotent on the fact log: calling `add_fact(X)`
twice (or when `X` is already present) leaves the log with exactly one
occurrence of `X`, otherwise unchanged and in insertion order.  (The count
hypothesis states that the starting log does not already duplicate `X`,
which `add_fact` itself guarantees for every log it built.) -/
theorem claim_C6 (X : String) (g : KG) (h : g.facts.count X ≤ 1) :
    add_fact (add_fact g X) X = add_fact g X ∧
    (add_fact (add_fact g X) X).facts =
      (if X ∈ g.facts then g.facts else g.facts ++ [X]) ∧
    (add_fact (add_fact g X) X).facts.count X = 1 := by
  by_cases hm : X ∈ g.facts
  · have hb : g.facts.contains X = true := by simp [List.contains, hm]
    have e1 : add_fact g X = g := by unfold add_fact; rw [if_pos hb]
    have hc0 : g.facts.count X ≠ 0 := by
      intro hc; exact (List.count_eq_zero.mp hc) hm
    refine ⟨by rw [e1, e1], by rw [e1, e1, if_pos hm], ?_⟩
    rw [e1, e1]
    omega
  · have hb : g.facts.contains X = false := by simp [List.contains, hm]
    have e1 : add_fact g X = { g with facts := g.facts ++ [X] } := by
      unfold add_fact; rw [if_neg (by simpa using hm)]
    have hb2 : (g.facts ++ [X]).contains X = true := by simp [List.contains]
    have e2 : add_fact { g with facts := g.facts ++ [X] } X
        = { g with facts := g.facts ++ [X] } := by
      unfold add_fact; rw [if_pos hb2]
    have hc0 : g.facts.count X = 0 := List.count_eq_zero.mpr hm
    refine ⟨by rw [e1, e2], by rw [e1, e2, if_neg hm], ?_⟩
    rw [e1, e2]
    simp [List.count_append, hc0]

/-- C6 witness: a concrete double insertion into the fresh knowledge
graph. -/
theorem claim_C6_witness :
    add_fact (add_fact initKG "(f 1)") "(f 1)" = add_fact initKG "(f 1)" ∧
    (add_fact (add_fact initKG "(f 1)") "(f 1)").facts =
      (if "(f 1)" ∈ initKG.facts then initKG.facts else initKG.facts ++ ["(f 1)"]) ∧
    (add_fact (add_fact initKG "(f 1)") "(f 1)").facts.count "(f 1)" = 1 :=
  claim_C6 "(f 1)" initKG (by decide)

/-- C9: the fallback parser rejects `send 10001 USDC to a.eth` with the
"Amount too large" error and `send 0 USDC to a.eth` with the "Amount must
be greater than 0" error, both with `success=false`. -/
theorem claim_C9 :
    (regex_parse_intent "send 10001 USDC to a.eth").success = false ∧
    (regex_parse_intent "send 10001 USDC to a.eth").error =
      some "Amount too large (max 10,000 USDC)" ∧
    (regex_parse_intent "send 0 USDC to a.eth").success = false ∧
    (regex_parse_intent "send 0 USDC to a.eth").error =
      some "Amount must be greater than 0" := by
  refine ⟨rfl, rfl, rfl, rfl⟩

/-- C8 counterexample: `send 5 USDC to not-an-alias` does not reach an
"Invalid ENS name format" error: no pattern matches (the recipient
patterns only match grammar-conforming aliases), so the parser returns the
generic could-not-parse error. -/
theorem claim_C8_counterexample :
    (regex_parse_intent "send 5 USDC to not-an-alias").success = false ∧
    (regex_parse_intent "send 5 USDC to not-an-alias").error =
      some "Could not parse payment command. Try: 'Send 5 USDC to vitalik.eth'" ∧
    (regex_parse_intent "send 5 USDC to not-an-alias").error ≠
      some "Invalid ENS name format" := by
  refine ⟨rfl, rfl, by decide⟩

/-- C8 (amended): parsing `send 5 USDC to not-an-alias` yields
`success=false` with the generic could-not-parse error; the
"Invalid ENS name format" branch of the parser is unreachable for every
prompt, because the match pattern itself only captures
grammar-conforming aliases. -/
theorem claim_C8 :
    (regex_parse_intent "send 5 USDC to not-an-alias").success = false ∧
    (regex_parse_intent "send 5 USDC to not-an-alias").error =
      some "Could not parse payment command. Try: 'Send 5 USDC to vitalik.eth'" ∧
    ∀ prompt : String,
      (regex_parse_intent prompt).error ≠ some "Invalid ENS name format" := by
  refine ⟨rfl, rfl, ?_⟩
  intro prompt
  unfold regex_parse_intent
  cases hscan : scanPatterns (stripL (lowerL prompt.data)) with
  | none => simp [hscan]
  | some pr =>
    obtain ⟨a, rcp⟩ := pr
    have hg := scanPatterns_grammar hscan
    by_cases h1 : a ≤ 0
    · simp [hscan, h1]
    · by_cases h2 : a > 10000
      · simp [hscan, h1, h2]
      · simp [hscan, h1, h2, hg]

/-- C4 counterexample: the oracle path performs no amount/alias
validation.  An ASI1 response `amount: 20000 recipient: bob.eth`
(status 200) makes the intent parser return `success=true` with amount
20000, violating the `amount ≤ 10000` invariant. -/
theorem claim_C4_counterexample :
    ((parse_intent
        { asi1 := some (.ok (200, "amount: 20000 recipient: bob.eth"))
          jsonLoads := fun _ => .error "json unused"
          balanceOf := fun _ => .ok 0
          decimals := .ok 6
          estimateGas := .error "gas estimation unavailable"
          hasResolver := true }
        none "send twenty thousand usdc to bob").1.success = true) ∧
    ((parse_intent
        { asi1 := some (.ok (200, "amount: 20000 recipient: bob.eth"))
          jsonLoads := fun _ => .error "json unused"
          balanceOf := fun _ => .ok 0
          decimals := .ok 6
          estimateGas := .error "gas estimation unavailable"
          hasResolver := true }
        none "send twenty thousand usdc to bob").1.amount = some 20000) ∧
    ¬ ((20000 : Rat) ≤ 10000) := by
  refine ⟨rfl, by decide, by norm_num⟩

/-- C4 (amended): every intent the fallback parsers (`_regex_parse_intent`
and `_fallback_metta_parse`) produce with `success=true` has
`0 < amount ≤ 10000` and a recipient matching `^[a-zA-Z0-9-]+\\.eth$`;
the oracle path performs no such validation (see the counterexample). -/
theorem claim_C4 (prompt : String) (kg : Option KG) (ctx : Bool) :
    ((regex_parse_intent prompt).success = true →
      ∃ a r, (regex_parse_intent prompt).amount = some a ∧
        (regex_parse_intent prompt).recipient = some r ∧
        0 < a ∧ a ≤ 10000 ∧ matchesEthGrammar r = true) ∧
    ((fallback_metta_parse kg ctx prompt).1.success = true →
      ∃ a r, (fallback_metta_parse kg ctx prompt).1.amount = some a ∧
        (fallback_metta_parse kg ctx prompt).1.recipient = some r ∧
        0 < a ∧ a ≤ 10000 ∧ matchesEthGrammar r = true) := by
  constructor
  · intro hs
    unfold regex_parse_intent at hs ⊢
    cases hscan : scanPatterns (stripL (lowerL prompt.data)) with
    | none => simp [hscan] at hs
    | some pr =>
      obtain ⟨a, rcp⟩ := pr
      have hg := scanPatterns_grammar hscan
      by_cases h1 : a ≤ 0
      · simp [hscan, h1] at hs
      · by_cases h2 : a > 10000
        · simp [hscan, h1, h2] at hs
        · refine ⟨a, String.mk (lowerL rcp.data), ?_, ?_, lt_of_not_le h1,
            le_of_not_lt h2, matchesEthGrammar_lower hg⟩
          · simp [hscan, h1, h2, hg]
          · simp [hscan, h1, h2, hg]
  · intro hs
    unfold fallback_metta_parse at hs ⊢
    cases hscan : scanPatterns (stripL (lowerL prompt.data)) with
    | none => simp [hscan] at hs
    | some pr =>
      obtain ⟨a, rcp⟩ := pr
      have hg := scanPatterns_grammar hscan
      by_cases h1 : a ≤ 0
      · simp [hscan, h1] at hs
      · by_cases h2 : a > 10000
        · simp [hscan, h1, h2] at hs
        · refine ⟨a, String.mk (lowerL rcp.data), ?_, ?_, lt_of_not_le h1,
            le_of_not_lt h2, matchesEthGrammar_lower hg⟩
          · simp [hscan, h1, h2, hg]
          · simp [hscan, h1, h2, hg]

/-- C4 witness: the fallback invariants hold on a concrete parsed
prompt. -/
theorem claim_C4_witness :
    (regex_parse_intent "send 5 usdc to alice.eth").success = true ∧
    ∃ a r, (regex_parse_intent "send 5 usdc to alice.eth").amount = some a ∧
      (regex_parse_intent "send 5 usdc to alice.eth").recipient = some r ∧
      0 < a ∧ a ≤ 10000 ∧ matchesEthGrammar r = true :=
  ⟨rfl, (claim_C4 "send 5 usdc to alice.eth" none false).1 rfl⟩

/-- C2 counterexample: for the unsupported chain id 999999 the balance
check returns a plain `0.0` with no error surfaced — observationally
identical to a supported chain whose account genuinely holds zero
(`envA.balanceOf` answers 0): the chain-configuration error is swallowed
by the catch-all of core.py:178-180, contradicting "never a silent
zero". -/
theorem claim_C2_counterexample :
    check_user_balance envA none "0xabc" 999999 = (0, none) ∧
    check_user_balance envA none "0xabc" 11155111 = (0, none) := by
  constructor <;> rfl

/-- C2 (amended): for every chain id absent from `CHAIN_CONFIG`,
`get_web3` raises `ValueError("Unsupported chain ID: ...")`, but
`check_user_balance` catches every exception and returns `0.0`; the
chain-configuration error is therefore not surfaced by the balance check —
it yields a silent zero. -/
theorem claim_C2 (env : Env) (addr : String) (chain : Nat)
    (h : dictGet CHAIN_CONFIG chain = none) :
    get_web3 chain = .error ("Unsupported chain ID: " ++ toString chain) ∧
    check_user_balance env none addr chain = (0, none) := by
  constructor
  · unfold get_web3; rw [h]
  · simp [check_user_balance, get_web3, h]

/-- C2 witness: chain id 999999 is not configured; the error is raised by
`get_web3` and swallowed into a zero balance. -/
theorem claim_C2_witness :
    dictGet CHAIN_CONFIG 999999 = none ∧
    get_web3 999999 = .error ("Unsupported chain ID: " ++ toString 999999) ∧
    check_user_balance envA none "0xabc" 999999 = (0, none) :=
  ⟨by decide, (claim_C2 envA "0xabc" 999999 (by decide)).1,
    (claim_C2 envA "0xabc" 999999 (by decide)).2⟩

/-- C7: resolution is idempotent and cached.  For every alias that
resolves successfully against a knowledge graph, the post-state caches the
alias at the returned address, and a second call returns the same address
from the cache with the external lookup step not executed (the final
`false` component). -/
theorem claim_C7 (g : KG) (A addr : String)
    (h : (resolve_ens (some g) A).1 = some addr) :
    ∃ g', (resolve_ens (some g) A).2.1 = some g' ∧
      get_cached_ens g' A = addr ∧
      resolve_ens (some g') A = (some addr, some g', false) := by
  unfold resolve_ens at h ⊢
  dsimp only at h ⊢
  by_cases hc : get_cached_ens g A ≠ ""
  · rw [if_pos hc] at h ⊢
    have haddr : get_cached_ens g A = addr := by simpa using h
    refine ⟨g, rfl, haddr, ?_⟩
    rw [haddr] at hc ⊢
    rw [if_pos hc]
  · rw [if_neg hc] at h ⊢
    cases hs : dictGet staticEnsMappings (String.mk (lowerL A.data)) with
    | none => rw [hs] at h; simp at h
    | some address =>
      rw [hs] at h
      dsimp only at h
      dsimp only
      have haddr : address = addr := by simpa using h
      subst haddr
      have hcache : get_cached_ens (update_ens_cache g A address) A = address := by
        unfold update_ens_cache get_cached_ens
        rw [add_fact_ens_cache]
        simp [dictGet_dictSet_self]
      refine ⟨update_ens_cache g A address, by simp, hcache, ?_⟩
      rw [hcache, if_pos (staticVal_ne_empty hs)]

/-- C7 witness: resolving `alice.eth` twice on a fresh knowledge graph. -/
theorem claim_C7_witness :
    (resolve_ens (some initKG) "alice.eth").1 =
      some "0x4675C7e5BaAFBFFbca748158bEcBA61ef3b0a263" ∧
    ∃ g', (resolve_ens (some initKG) "alice.eth").2.1 = some g' ∧
      get_cached_ens g' "alice.eth" = "0x4675C7e5BaAFBFFbca748158bEcBA61ef3b0a263" ∧
      resolve_ens (some g') "alice.eth" =
        (some "0x4675C7e5BaAFBFFbca748158bEcBA61ef3b0a263", some g', false) :=
  ⟨rfl, claim_C7 initKG "alice.eth" "0x4675C7e5BaAFBFFbca748158bEcBA61ef3b0a263" rfl⟩

/-- C3: for every supported chain, hex recipient address, and nonnegative
amount whose scaled integer value fits 32 bytes, the prepared payload is
the exact ERC-20 `transfer` encoding: the data field is the selector
`0xa9059cbb`, then the address left-zero-padded to 32 bytes, then
`int(amount * 10^6)` as a 32-byte big-endian integer (the final conjunct
identifies the kernel-evaluable scaled rational with `amount * 10^6`);
`value` is `"0x0"`, `to` is the chain's configured token contract, and
`chainId` is the chain id in hex. -/
theorem claim_C3 (env : Env) (to_addr : String) (a : Rat) (chain : Nat) (cfg : ChainCfg)
    (hcfg : dictGet CHAIN_CONFIG chain = some cfg)
    (hlen : to_addr.data.length = 42)
    (hhex : ∀ c ∈ to_addr.data.drop 2, (hexVal c).isSome)
    (ha : 0 ≤ a)
    (hwei : pyInt (ratScale a 6) < (2 : Int) ^ (256 : Nat)) :
    ∃ tx bs, prepare_transaction env to_addr (some a) chain = .ok tx ∧
      bytesFromHexL (pyZfill (String.mk (to_addr.data.drop 2)) 64).data = some bs ∧
      tx.data = "0xa9059cbb" ++ bytesToHex bs
        ++ bytesToHex (natToBytesBE 32 (pyInt (ratScale a 6)).toNat) ∧
      tx.value = "0x0" ∧ tx.toAddr = cfg.usdc ∧ tx.chainId = pyHex chain ∧
      ratScale a 6 = a * (10 : Rat) ^ (6 : Nat) :=
  prepare_transaction_ok env to_addr a chain cfg hcfg hlen hhex ha hwei

/-- C5 counterexample: with an LLM client configured, the oracle body
`{"success": false}` (a JSON object with no `error` field) yields a
failure result whose `error` is `None` — a failure path without an error
message. -/
theorem claim_C5_counterexample :
    (handle_payment_request
      { asi1 := some (.ok (200, "\x7b\"success\": false\x7d"))
        jsonLoads := fun _ => .ok { success := some false }
        balanceOf := fun _ => .ok 0
        decimals := .ok 6
        estimateGas := .error "gas estimation unavailable"
        hasResolver := true }
      none "send 5 usdc to alice.eth" "0xUser" 11155111).1.success = false ∧
    (handle_payment_request
      { asi1 := some (.ok (200, "\x7b\"success\": false\x7d"))
        jsonLoads := fun _ => .ok { success := some false }
        balanceOf := fun _ => .ok 0
        decimals := .ok 6
        estimateGas := .error "gas estimation unavailable"
        hasResolver := true }
      none "send 5 usdc to alice.eth" "0xUser" 11155111).1.error = none := by
  constructor <;> rfl

/-- C5 (amended): `handle_payment_request` is a total function into
structured results — no stage exception crosses its boundary (stage
failures are `Except` values consumed inside the orchestrator, as the
embedding makes explicit by its type) — and with no LLM client configured
every failure result carries an error message.  (With an LLM client, an
oracle JSON failure response lacking an `error` field produces a failure
result whose error is null — see the counterexample.) -/
theorem claim_C5 (env : Env) (kg : Option KG) (prompt user : String) (chain : Nat)
    (hasi : env.asi1 = none) :
    (handle_payment_request env kg prompt user chain).1.success = false →
    ((handle_payment_request env kg prompt user chain).1.error).isSome := by
  have hperr := regex_parse_error prompt
  unfold handle_payment_request
  simp only [parse_intent, hasi]
  by_cases hsucc : (regex_parse_intent prompt).success
  · rw [if_neg (by simp [hsucc])]
    exact payment_pipeline_error _ _ _ _ _ _ _ rfl
  · have hsucc2 : (regex_parse_intent prompt).success = false := by
      simpa using hsucc
    rw [if_pos (by simp [hsucc2])]
    intro _
    exact hperr hsucc2

/-- C5 witness: the concrete no-client environment on an unparseable
prompt returns a failure carrying a message. -/
theorem claim_C5_witness :
    ((handle_payment_request envA none "hello there" "0xUser" 1).1.error).isSome :=
  claim_C5 envA none "hello there" "0xUser" 1 rfl (by rfl)

set_option maxRecDepth 8000 in
/-- C3 witness: the 5-USDC transfer to the `alice.eth` address on
Sepolia. -/
theorem claim_C3_witness :
    ∃ tx bs, prepare_transaction envA
        "0x4675C7e5BaAFBFFbca748158bEcBA61ef3b0a263" (some 5) 11155111 = .ok tx ∧
      bytesFromHexL (pyZfill (String.mk
        (("0x4675C7e5BaAFBFFbca748158bEcBA61ef3b0a263" : String).data.drop 2)) 64).data
        = some bs ∧
      tx.data = "0xa9059cbb" ++ bytesToHex bs
        ++ bytesToHex (natToBytesBE 32 (pyInt (ratScale 5 6)).toNat) ∧
      tx.value = "0x0" ∧
      tx.toAddr = (⟨"Sepolia", "0x1c7D4B196Cb0C7B01d743Fbc6116a902379C7238"⟩ : ChainCfg).usdc ∧
      tx.chainId = pyHex 11155111 ∧
      ratScale 5 6 = (5 : Rat) * (10 : Rat) ^ (6 : Nat) :=
  claim_C3 envA "0x4675C7e5BaAFBFFbca748158bEcBA61ef3b0a263" 5 11155111
    ⟨"Sepolia", "0x1c7D4B196Cb0C7B01d743Fbc6116a902379C7238"⟩
    (by decide) (by decide) (by decide) (by decide) (by decide)


/-- C10: with no knowledge graph configured (core.py:26-31 stores
`metta_kg = None`), the insufficient-balance gate of core.py:291-303 is
skipped — its guard reads `if self.metta_kg and ...` — so every request
that parses and resolves proceeds to transaction preparation and
succeeds, even under the hypothesis that the freshly fetched balance is
strictly below the requested amount. -/
theorem claim_C10 (env : Env) (prompt user r addr : String) (chain : Nat)
    (cfg : ChainCfg) (a : Rat)
    (hasi : env.asi1 = none)
    (hres : env.hasResolver = true)
    (hcfg : dictGet CHAIN_CONFIG chain = some cfg)
    (hsucc : (regex_parse_intent prompt).success = true)
    (hamt : (regex_parse_intent prompt).amount = some a)
    (hrcp : (regex_parse_intent prompt).recipient = some r)
    (hstatic : dictGet staticEnsMappings (String.mk (lowerL r.data)) = some addr)
    (hbal : (check_user_balance env none user chain).1 < a) :
    (handle_payment_request env none prompt user chain).1.success = true ∧
    ((handle_payment_request env none prompt user chain).1.transaction).isSome ∧
    (handle_payment_request env none prompt user chain).1.error = none := by
  obtain ⟨h0, h10⟩ := regex_success_amount hsucc hamt
  obtain ⟨tx, bs, htx, -⟩ := prepare_transaction_ok env addr a chain cfg hcfg
    (staticVal_shape hstatic).1 (staticVal_shape hstatic).2 (le_of_lt h0)
    (pyInt_ratScale_lt (le_of_lt h0) h10)
  have hre : resolve_ens none r = (some addr, none, true) := by
    simp [resolve_ens, hstatic]
  unfold handle_payment_request
  simp only [parse_intent, hasi]
  rw [if_neg (by simp [hsucc])]
  unfold payment_pipeline
  simp only [kg_query, resolve_step, hres, hrcp, hamt, hre, if_true]
  rw [if_neg (by simpa using staticVal_ne_empty hstatic)]
  rcases hcb : check_user_balance env none user chain with ⟨ub, kg3⟩
  have hkg3 : kg3 = none := by
    have h2 := check_user_balance_none env user chain
    rw [hcb] at h2
    exact h2
  subst hkg3
  dsimp only
  rw [if_neg (by simp)]
  simp only [Option.getD_some, htx]
  exact ⟨trivial, rfl, trivial⟩

/-- C10 witness: `send 5 usdc to alice.eth` on Sepolia with no knowledge
graph; the RPC balance is 0, strictly below the requested 5 USDC, yet the
request succeeds with a prepared transaction. -/
theorem claim_C10_witness :
    (handle_payment_request envA none "send 5 usdc to alice.eth" "0xUser"
      11155111).1.success = true ∧
    ((handle_payment_request envA none "send 5 usdc to alice.eth" "0xUser"
      11155111).1.transaction).isSome ∧
    (handle_payment_request envA none "send 5 usdc to alice.eth" "0xUser"
      11155111).1.error = none :=
  claim_C10 envA "send 5 usdc to alice.eth" "0xUser" "alice.eth"
    "0x4675C7e5BaAFBFFbca748158bEcBA61ef3b0a263" 11155111
    ⟨"Sepolia", "0x1c7D4B196Cb0C7B01d743Fbc6116a902379C7238"⟩ 5
    rfl rfl (by decide) rfl (by decide) (by decide) (by decide) (by decide)

/-- C1: with a knowledge graph holding a cached balance of 3.0 for the
user, a parsed request for 5 USDC to a statically resolvable alias fails
with `success=false`; the error message is the insufficient-balance
message, which contains both the balance formatted to two decimals
("3.00") and the requested amount ("5"); no transaction is prepared; and
the decision is made through the fact-store can-pay query: the result
echoed in `metta_query_result` is the derived `(insufficient-balance ...)`
fact, which the query appended to the final knowledge graph's fact log
(knowledge_graph.py:60-78). -/
theorem claim_C1 (env : Env) (g : KG) (prompt user r : String) (chain : Nat)
    (hasi : env.asi1 = none)
    (hres : env.hasResolver = true)
    (hsucc : (regex_parse_intent prompt).success = true)
    (hamt : (regex_parse_intent prompt).amount = some 5)
    (hrcp : (regex_parse_intent prompt).recipient = some r)
    (hstatic : (dictGet staticEnsMappings (String.mk (lowerL r.data))).isSome)
    (hbal : get_cached_balance g user = 3)
    (hne : user.data ≠ [])
    (hu : ∀ c ∈ user.data, isWsC c = false ∧ c ≠ '(' ∧ c ≠ ')') :
    (handle_payment_request env (some g) prompt user chain).1.success = false ∧
    (handle_payment_request env (some g) prompt user chain).1.error
      = some "Insufficient balance. You have 3.00 USDC, need 5.0 USDC" ∧
    strContains "Insufficient balance. You have 3.00 USDC, need 5.0 USDC" "3.00" = true ∧
    strContains "Insufficient balance. You have 3.00 USDC, need 5.0 USDC" "5" = true ∧
    (handle_payment_request env (some g) prompt user chain).1.transaction = none ∧
    (handle_payment_request env (some g) prompt user chain).1.metta_query_result
      = some ["(insufficient-balance " ++ user ++ " 5.0 3.0)"] ∧
    ∃ gfin, (handle_payment_request env (some g) prompt user chain).2 = some gfin ∧
      ("(insufficient-balance " ++ user ++ " 5.0 3.0)") ∈ gfin.facts := by
  unfold handle_payment_request
  simp only [parse_intent, hasi, get_payment_reasoning]
  rw [if_neg (by simp [hsucc])]
  unfold payment_pipeline
  simp only [kg_query, resolve_step, hres, hrcp, hamt]
  set g2 := add_fact (update_user_history g user ⟨prompt, chain, 1⟩)
    ("(payment-request " ++ user ++ " \x22" ++ prompt ++ "\x22)") with hg2
  simp only [if_true]
  set g3 := (query g2 ("(query (resolve-ens " ++ pyReprOptStr (some r) ++ "))")).2 with hg3
  obtain ⟨A, g4, b, hres4, hAne, hbc4⟩ := resolve_ens_some_static g3 r hstatic
  simp only [hres4]
  rw [if_neg (by simpa using hAne)]
  have hbc2 : g2.balance_cache = g.balance_cache := by
    rw [hg2, add_fact_balance_cache, update_user_history_balance_cache]
  have hbc3 : g3.balance_cache = g.balance_cache := by
    rw [hg3, query_balance_cache, hbc2]
  have hbal4 : get_cached_balance g4 user = 3 := by
    rw [get_cached_balance_congr (hbc4.trans hbc3) user, hbal]
  have hcb : check_user_balance env (some g4) user chain = (3, some g4) := by
    rw [check_user_balance_hit env g4 user chain (by rw [hbal4]; norm_num), hbal4]
  simp only [hcb]
  rw [(by decide : pyReprOptQ (some (5 : Rat)) = "5.0")]
  rw [query_canpay_insufficient g4 user hne hu hbal4]
  dsimp only
  rw [if_pos ⟨rfl, strContains_insuff user⟩]
  have herr : "Insufficient balance. You have " ++ format2 3 ++ " USDC, need "
      ++ "5.0" ++ " USDC" = "Insufficient balance. You have 3.00 USDC, need 5.0 USDC" := by
    decide
  rw [herr]
  exact ⟨rfl, rfl, by decide, by decide, rfl, rfl,
    add_fact g4 ("(insufficient-balance " ++ user ++ " 5.0 3.0)"), rfl,
    mem_add_fact_self g4 ("(insufficient-balance " ++ user ++ " 5.0 3.0)")⟩

/-- C1 witness: the user `0xUser` with a cached balance of 3.0 requesting
`send 5 usdc to alice.eth` on Sepolia. -/
theorem claim_C1_witness :
    (handle_payment_request envA (some (update_balance_cache initKG "0xUser" 3))
      "send 5 usdc to alice.eth" "0xUser" 11155111).1.success = false ∧
    (handle_payment_request envA (some (update_balance_cache initKG "0xUser" 3))
      "send 5 usdc to alice.eth" "0xUser" 11155111).1.error
      = some "Insufficient balance. You have 3.00 USDC, need 5.0 USDC" ∧
    strContains "Insufficient balance. You have 3.00 USDC, need 5.0 USDC" "3.00" = true ∧
    strContains "Insufficient balance. You have 3.00 USDC, need 5.0 USDC" "5" = true ∧
    (handle_payment_request envA (some (update_balance_cache initKG "0xUser" 3))
      "send 5 usdc to alice.eth" "0xUser" 11155111).1.transaction = none ∧
    (handle_payment_request envA (some (update_balance_cache initKG "0xUser" 3))
      "send 5 usdc to alice.eth" "0xUser" 11155111).1.metta_query_result
      = some ["(insufficient-balance " ++ "0xUser" ++ " 5.0 3.0)"] ∧
    ∃ gfin, (handle_payment_request envA (some (update_balance_cache initKG "0xUser" 3))
        "send 5 usdc to alice.eth" "0xUser" 11155111).2 = some gfin ∧
      ("(insufficient-balance " ++ "0xUser" ++ " 5.0 3.0)") ∈ gfin.facts :=
  claim_C1 envA (update_balance_cache initKG "0xUser" 3)
    "send 5 usdc to alice.eth" "0xUser" "alice.eth" 11155111
    rfl rfl rfl (by decide) (by decide) (by decide) (by decide) (by decide) (by decide)

end PayBot
